import Mathlib

/-!
Verification of the date-range API discovery and replay engine of
`src/pygen/date_api_extractor.py` (class `DateAPIExtractor`).

The Python source is shallowly embedded:
* dynamically-typed Python values are the inductive `PyVal`;
* Python exceptions are the inductive `PyErr`, fallible code runs in
  `Py α := Except PyErr α`, and `try/except Exception` blocks become `tryAll`;
* `str` operations work on `List Char` (ASCII-faithful; the source only
  manipulates ASCII parameter names, URLs and ISO dates, plus fixed Chinese
  message literals that are never inspected);
* floats (confidence scores) are modelled as exact rationals `ℚ`: every
  confidence constant in the source is a small decimal and no claim in scope
  depends on binary rounding;
* the browser / LLM collaborators are an explicit `Behavior` record giving the
  outcome (value or exception) of each collaborator call site.
-/

namespace SpiderGen

/-- Python runtime values, as far as the extractor manipulates them:
`None`, booleans, integers, strings, lists and string-keyed dicts
(everything that can cross the `page.evaluate` JSON boundary). -/
inductive PyVal where
  | none : PyVal
  | bool : Bool → PyVal
  | int : Int → PyVal
  | str : String → PyVal
  | list : List PyVal → PyVal
  | dict : List (String × PyVal) → PyVal

/-- Python exceptions distinguished by the embedding.  `toMsg` plays the role
of `str(e)` in the source's `except Exception as e` handlers. -/
inductive PyErr where
  | attributeError : String → PyErr
  | typeError : String → PyErr
  | keyError : String → PyErr
  | indexError : String → PyErr
  | other : String → PyErr
deriving DecidableEq, Repr

def PyErr.toMsg : PyErr → String
  | .attributeError m => m
  | .typeError m => m
  | .keyError m => m
  | .indexError m => m
  | .other m => m

/-- Fallible Python computation. -/
abbrev Py (α : Type) := Except PyErr α

/-- `try: body except Exception as e: handler(str(e))` — the universal
catch-all used by every layer of the extractor. -/
def tryAll {α : Type} (body : Py α) (handler : String → α) : α :=
  match body with
  | .ok a => a
  | .error e => handler e.toMsg

/-! ## String helpers (Python `str` semantics on ASCII data) -/

/-- Python `str.lower()` (ASCII range, which is all the source compares). -/
def strLower (s : String) : String := ⟨s.data.map Char.toLower⟩

/-- Python `str.upper()` (ASCII range). -/
def strUpper (s : String) : String := ⟨s.data.map Char.toUpper⟩

/-- Boolean infix test on lists. -/
def listIsInfix (sub : List Char) : List Char → Bool
  | [] => sub.isEmpty
  | x :: xs => sub.isPrefixOf (x :: xs) || listIsInfix sub xs

/-- Python `sub in s` substring test. -/
def strContains (s sub : String) : Bool := listIsInfix sub.data s.data

/-- Python `s.startswith(p)`. -/
def strStarts (s p : String) : Bool := p.data.isPrefixOf s.data

/-- Python `s.endswith(p)`. -/
def strEnds (s p : String) : Bool := p.data.isSuffixOf s.data

/-- Python whitespace for `str.strip()` / `\s` (ASCII part). -/
def isPyWs (c : Char) : Bool :=
  c = ' ' ∨ c = '\t' ∨ c = '\n' ∨ c = '\r' ∨ c = '\x0b' ∨ c = '\x0c'

/-- Python `str.strip()`. -/
def strStrip (s : String) : String :=
  ⟨(s.data.dropWhile isPyWs).reverse.dropWhile isPyWs |>.reverse⟩

/-- Python `s[:n]` on a string. -/
def strTake (s : String) (n : Nat) : String := ⟨s.data.take n⟩

/-- Python `s[n:]` on a string. -/
def strDrop (s : String) (n : Nat) : String := ⟨s.data.drop n⟩

/-- Split a char list at the first occurrence of `c`:
returns `(before, some after)` or `(l, none)` if absent. -/
def splitFirst (c : Char) : List Char → List Char × Option (List Char)
  | [] => ([], Option.none)
  | x :: xs =>
    if x = c then ([], some xs)
    else
      let (b, a) := splitFirst c xs
      (x :: b, a)

/-- Helper for `strSplitChar`: structural recursion with an accumulator for
the chunk being built (held reversed). -/
def splitCharAux (sep : Char) : List Char → List Char → List String
  | [], acc => [⟨acc.reverse⟩]
  | x :: xs, acc =>
    if x = sep then ⟨acc.reverse⟩ :: splitCharAux sep xs []
    else splitCharAux sep xs (x :: acc)

/-- Python `s.split(sep)` for a single-char separator (always ≥ 1 part). -/
def strSplitChar (sep : Char) (s : String) : List String :=
  splitCharAux sep s.data []

/-! ## Dynamic (duck-typed) operations on `PyVal`

Each operation raises exactly where CPython raises on the same shape of
value; exception messages are abbreviated (no claim inspects them). -/

/-- Python truthiness. -/
def pyTruthy : PyVal → Bool
  | .none => false
  | .bool b => b
  | .int n => n ≠ 0
  | .str s => ¬ s.data.isEmpty
  | .list xs => ¬ xs.isEmpty
  | .dict xs => ¬ xs.isEmpty

/-- `v.get(k, dflt)` — raises `AttributeError` on non-dicts. -/
def pyDictGet (v : PyVal) (k : String) (dflt : PyVal) : Py PyVal :=
  match v with
  | .dict xs => pure ((xs.lookup k).getD dflt)
  | _ => throw (.attributeError "object has no attribute get")

/-- `list(v.keys())` — raises `AttributeError` on non-dicts. -/
def pyKeys (v : PyVal) : Py (List String) :=
  match v with
  | .dict xs => pure (xs.map Prod.fst)
  | _ => throw (.attributeError "object has no attribute keys")

/-- `v.items()` — raises `AttributeError` on non-dicts. -/
def pyItems (v : PyVal) : Py (List (String × PyVal)) :=
  match v with
  | .dict xs => pure xs
  | _ => throw (.attributeError "object has no attribute items")

/-- `len(v)`. -/
def pyLen (v : PyVal) : Py Nat :=
  match v with
  | .str s => pure s.data.length
  | .list xs => pure xs.length
  | .dict xs => pure xs.length
  | _ => throw (.typeError "object has no len")

/-- `for x in v` — dicts iterate their keys, strings their characters. -/
def pyIter (v : PyVal) : Py (List PyVal) :=
  match v with
  | .list xs => pure xs
  | .dict xs => pure (xs.map (fun kv => PyVal.str kv.1))
  | .str s => pure (s.data.map (fun c => PyVal.str ⟨[c]⟩))
  | _ => throw (.typeError "object is not iterable")

/-- `v[:n]` — only strings and lists are sliceable. -/
def pySlice (v : PyVal) (n : Nat) : Py PyVal :=
  match v with
  | .str s => pure (.str (strTake s n))
  | .list xs => pure (.list (xs.take n))
  | _ => throw (.typeError "object is not subscriptable")

/-- `v[0]`. -/
def pyIndex0 (v : PyVal) : Py PyVal :=
  match v with
  | .list (x :: _) => pure x
  | .list [] => throw (.indexError "list index out of range")
  | .str s =>
    match s.data with
    | c :: _ => pure (.str ⟨[c]⟩)
    | [] => throw (.indexError "string index out of range")
  | .dict _ => throw (.keyError "0")
  | _ => throw (.typeError "object is not subscriptable")

/-- Calling a `str` method (`.lower()`, `.startswith(..)`, …) on `v`:
returns the string, raising `AttributeError` on non-strings. -/
def pyExpectStr (v : PyVal) : Py String :=
  match v with
  | .str s => pure s
  | _ => throw (.attributeError "object has no such string attribute")

mutual
/-- Python `repr` of a value (enough fidelity for `str()` of containers;
these renderings are never parsed back by the source). -/
def pyRepr : PyVal → String
  | .none => "None"
  | .bool b => if b then "True" else "False"
  | .int n => toString n
  | .str s => "'" ++ s ++ "'"
  | .list xs => "[" ++ pyReprList xs ++ "]"
  | .dict xs => "\x7b" ++ pyReprDict xs ++ "\x7d"

def pyReprList : List PyVal → String
  | [] => ""
  | [x] => pyRepr x
  | x :: xs => pyRepr x ++ ", " ++ pyReprList xs

def pyReprDict : List (String × PyVal) → String
  | [] => ""
  | [(k, v)] => "'" ++ k ++ "': " ++ pyRepr v
  | (k, v) :: xs => "'" ++ k ++ "': " ++ pyRepr v ++ ", " ++ pyReprDict xs
end

/-- Python `str(v)`. -/
def pyToStr : PyVal → String
  | .str s => s
  | v => pyRepr v

/-! ## Date value/name pattern matchers
(`DATE_VALUE_PATTERNS` and `DATE_PARAM_PATTERNS` of the source; the
`re.match` of an anchored `^...$` pattern is a full match, and `re.match`
of an unanchored `(?i)` pattern is a case-insensitive prefix match). -/

def allDigits (l : List Char) : Bool := l.all Char.isDigit

/-- `^\d{4}-\d{2}-\d{2}$`. -/
def isFmtYmdDash : List Char → Bool
  | [a, b, c, d, '-', e, f, '-', g, h] => allDigits [a, b, c, d, e, f, g, h]
  | _ => false

/-- `^\d{8}$`. -/
def isFmtYmd8 (l : List Char) : Bool := l.length = 8 ∧ allDigits l

/-- `^\d{4}/\d{2}/\d{2}$`. -/
def isFmtYmdSlash : List Char → Bool
  | [a, b, c, d, '/', e, f, '/', g, h] => allDigits [a, b, c, d, e, f, g, h]
  | _ => false

/-- `^\d{10}$`. -/
def isFmtTs10 (l : List Char) : Bool := l.length = 10 ∧ allDigits l

/-- `^\d{13}$`. -/
def isFmtTs13 (l : List Char) : Bool := l.length = 13 ∧ allDigits l

/-- `\d{2}:\d{2}:\d{2}` (exact). -/
def isTimePart : List Char → Bool
  | [h1, h2, ':', m1, m2, ':', s1, s2] => allDigits [h1, h2, m1, m2, s1, s2]
  | _ => false

/-- `^\d{4}-\d{2}-\d{2}\s+\d{2}:\d{2}:\d{2}$`. -/
def isFmtDateTime : List Char → Bool
  | a :: b :: c :: d :: '-' :: e :: f :: '-' :: g :: h :: w :: rest =>
    allDigits [a, b, c, d, e, f, g, h] ∧ isPyWs w ∧ isTimePart (rest.dropWhile isPyWs)
  | _ => false

/-- First matching entry of `DATE_VALUE_PATTERNS` (same order as the source). -/
def dateValueFmt (l : List Char) : Option String :=
  if isFmtYmdDash l then some "YYYY-MM-DD"
  else if isFmtYmd8 l then some "YYYYMMDD"
  else if isFmtYmdSlash l then some "YYYY/MM/DD"
  else if isFmtTs10 l then some "timestamp_s"
  else if isFmtTs13 l then some "timestamp_ms"
  else if isFmtDateTime l then some "YYYY-MM-DD HH:MM:SS"
  else Option.none

/-- Case-insensitive prefix match of `a[_-]?b` against an already-lowercased key. -/
def pfxOptSep (a b : String) (l : List Char) : Bool :=
  (a.data ++ b.data).isPrefixOf l ∨ (a.data ++ '_' :: b.data).isPrefixOf l ∨
    (a.data ++ '-' :: b.data).isPrefixOf l

/-- `any(re.match(p, key) for p in DATE_PARAM_PATTERNS)`: every pattern is
`(?i)` so we lowercase the key once; each disjunct below is one source
pattern, in order. -/
def nameMatchesDatePat (key : String) : Bool :=
  let l := (strLower key).data
  pfxOptSep "start" "date" l ∨ pfxOptSep "begin" "date" l ∨ pfxOptSep "from" "date" l ∨
  pfxOptSep "date" "from" l ∨ pfxOptSep "start" "time" l ∨ pfxOptSep "begin" "time" l ∨
  "searchdate".data.isPrefixOf l ∨ pfxOptSep "search" "date" l ∨
  "start_date".data.isPrefixOf l ∨ "begin_date".data.isPrefixOf l ∨
  pfxOptSep "end" "date" l ∨ pfxOptSep "to" "date" l ∨ pfxOptSep "date" "to" l ∨
  pfxOptSep "end" "time" l ∨ "enddate".data.isPrefixOf l ∨ pfxOptSep "end" "date" l ∨
  "end_date".data.isPrefixOf l ∨
  "date".data.isPrefixOf l ∨ "time".data.isPrefixOf l ∨ "day".data.isPrefixOf l ∨
  pfxOptSep "publish" "date" l ∨ pfxOptSep "release" "date" l ∨ pfxOptSep "create" "date" l

/-- `self._noise_param_names` (set literal in `__init__`). -/
def noiseParamNames : List String :=
  ["_", "__", "_t", "t", "ts", "timestamp", "_timestamp", "_ts"]

/-! ## `_identify_date_params` -/

/-- One iteration of the `_identify_date_params` loop: the noise-name
skip, the array-value branch, the name∧value branch, then the loose
key-token branch, appending an accepted `(key, format)` entry. -/
def identifyStep (acc : List (String × PyVal)) (kv : String × PyVal) :
    List (String × PyVal) :=
  let key := kv.1
  let value := kv.2
  let keyL := strLower key
  if keyL ∈ noiseParamNames then acc
  else
    match value with
    | .list items =>
      let fmts := items.filterMap (fun it =>
        match it with
        | .str s => dateValueFmt (strStrip s).data
        | _ => Option.none)
      if ¬ fmts.isEmpty then
        if nameMatchesDatePat key ∨
            (["date", "time", "se", "range"].any (fun t => strContains keyL t)) then
          acc ++ [(key, .str (fmts.headD ""))]
        else acc
      else acc
    | _ =>
      let vs := pyToStr value
      let nameMatches := nameMatchesDatePat key
      match dateValueFmt (strStrip vs).data with
      | some fmt =>
        if nameMatches then acc ++ [(key, .str fmt)]
        else if vs.data.length ≥ 8 ∧
            (["date", "time", "day", "start", "end", "begin", "from", "to"].any
              (fun t => strContains keyL t)) then
          acc ++ [(key, .str fmt)]
        else acc
      | Option.none => acc

/-- `DateAPIExtractor._identify_date_params`: recognizes date-shaped
parameters of a flat parameter map, in iteration order. -/
def identifyDateParams (params : List (String × PyVal)) : List (String × PyVal) :=
  params.foldl identifyStep []

/-! ## `urllib.parse` model

`urlparse`/`urlunparse`/`parse_qs`/`urlencode` as used by the extractor.
The model implements the tab/CR/LF removal of modern `urlsplit`, scheme and
`//netloc` splitting, `#fragment`/`?query` splitting and the `;params`
refinement of `urlparse`; percent-escapes are decoded/encoded bytewise (all
data the extractor round-trips is ASCII).  The IPv6-bracket `ValueError` is
not modelled: every `urlparse` call reachable from the orchestrator is
either inside a catch-all or applied to a URL that already survived a
parse, so this never changes an observable outcome. -/

structure UrlParts where
  scheme : String := ""
  netloc : String := ""
  path : String := ""
  paramsC : String := ""
  query : String := ""
  fragment : String := ""

/-- `urlsplit` removes every tab/CR/LF anywhere in the URL. -/
def urlSanitize (s : String) : String :=
  ⟨s.data.filter (fun c => c ≠ '\t' ∧ c ≠ '\r' ∧ c ≠ '\n')⟩

/-- `_splitparams` of `urllib.parse`. -/
def splitParams (l : List Char) : List Char × List Char :=
  if l.contains '/' then
    let ri :=
      match l.reverse.findIdx? (fun c => c = '/') with
      | some j => l.length - 1 - j
      | Option.none => 0
    match ((l.drop ri).findIdx? (fun c => c = ';')).map (· + ri) with
    | some i => (l.take i, l.drop (i + 1))
    | Option.none => (l, [])
  else
    match l.findIdx? (fun c => c = ';') with
    | some i => (l.take i, l.drop (i + 1))
    | Option.none => (l, [])

def urlparse (url0 : String) : UrlParts :=
  let l0 := (urlSanitize url0).data
  let schemeRest :=
    match splitFirst ':' l0 with
    | (before, some after) =>
      if before.length > 0 ∧ (before.headD ' ').isAlpha ∧
          before.all (fun c => c.isAlphanum ∨ c = '+' ∨ c = '-' ∨ c = '.') then
        (some (before.map Char.toLower), after)
      else (Option.none, l0)
    | (_, Option.none) => (Option.none, l0)
  let l1 := schemeRest.2
  let netlocRest :=
    match l1 with
    | '/' :: '/' :: rest =>
      let nl := rest.takeWhile (fun c => c ≠ '/' ∧ c ≠ '?' ∧ c ≠ '#')
      (nl, rest.drop nl.length)
    | _ => ([], l1)
  let l2 := netlocRest.2
  let fragSplit :=
    match splitFirst '#' l2 with
    | (b, some a) => (b, a)
    | (b, Option.none) => (b, [])
  let querySplit :=
    match splitFirst '?' fragSplit.1 with
    | (b, some a) => (b, a)
    | (b, Option.none) => (b, [])
  let pathParams :=
    if querySplit.1.contains ';' then splitParams querySplit.1 else (querySplit.1, [])
  { scheme := ⟨(schemeRest.1).getD []⟩
    netloc := ⟨netlocRest.1⟩
    path := ⟨pathParams.1⟩
    paramsC := ⟨pathParams.2⟩
    query := ⟨querySplit.2⟩
    fragment := ⟨fragSplit.2⟩ }

/-- `urlunparse` (via `urlunsplit`). -/
def urlunparse (u : UrlParts) : String :=
  let url := u.path ++ (if u.paramsC ≠ "" then ";" ++ u.paramsC else "")
  let url :=
    if u.netloc ≠ "" ∨ strStarts url "//" then
      "//" ++ u.netloc ++ (if url ≠ "" ∧ ¬ strStarts url "/" then "/" ++ url else url)
    else url
  let url := if u.scheme ≠ "" then u.scheme ++ ":" ++ url else url
  let url := if u.query ≠ "" then url ++ "?" ++ u.query else url
  if u.fragment ≠ "" then url ++ "#" ++ u.fragment else url

def hexVal (c : Char) : Nat :=
  if c.isDigit then c.toNat - '0'.toNat
  else if 'a' ≤ c ∧ c ≤ 'f' then c.toNat - 'a'.toNat + 10
  else if 'A' ≤ c ∧ c ≤ 'F' then c.toNat - 'A'.toNat + 10
  else 0

def isHexDigit (c : Char) : Bool :=
  c.isDigit ∨ ('a' ≤ c ∧ c ≤ 'f') ∨ ('A' ≤ c ∧ c ≤ 'F')

/-- Percent-decoding (bytewise model of `unquote`). -/
def unquotePct : List Char → List Char
  | [] => []
  | '%' :: a :: b :: rest =>
    if isHexDigit a ∧ isHexDigit b then
      Char.ofNat (16 * hexVal a + hexVal b) :: unquotePct rest
    else '%' :: unquotePct (a :: b :: rest)
  | c :: rest => c :: unquotePct rest

/-- `unquote_plus`. -/
def unquotePlus (s : String) : String :=
  ⟨unquotePct (s.data.map (fun c => if c = '+' then ' ' else c))⟩

/-- `parse_qsl(qs, keep_blank_values=keepBlank)` (default separator `&`,
no strict parsing). -/
def parseQsl (qs : String) (keepBlank : Bool) : List (String × String) :=
  (strSplitChar '&' qs).filterMap (fun nv =>
    if nv = "" then Option.none
    else
      match splitFirst '=' nv.data with
      | (n, some v) =>
        if ¬ v.isEmpty ∨ keepBlank then some (unquotePlus ⟨n⟩, unquotePlus ⟨v⟩)
        else Option.none
      | (n, Option.none) =>
        if keepBlank then some (unquotePlus ⟨n⟩, "") else Option.none)

/-- Append `v` to the entry of `k` (preserving first-occurrence order). -/
def qsAppend (acc : List (String × List String)) (k : String) (v : String) :
    List (String × List String) :=
  match acc with
  | [] => [(k, [v])]
  | (k', vs) :: rest =>
    if k' = k then (k', vs ++ [v]) :: rest else (k', vs) :: qsAppend rest k v

/-- `parse_qs`. -/
def parseQs (qs : String) (keepBlank : Bool) : List (String × List String) :=
  (parseQsl qs keepBlank).foldl (fun acc kv => qsAppend acc kv.1 kv.2) []

/-- `{k: v[0] if len(v) == 1 else v for k, v in qs.items()}` — the flat-map
construction used for query params. -/
def flattenQs (m : List (String × List String)) : List (String × PyVal) :=
  m.map (fun kv =>
    match kv.2 with
    | [v] => (kv.1, PyVal.str v)
    | vs => (kv.1, PyVal.list (vs.map PyVal.str)))

def hexDigitUpper (n : Nat) : Char :=
  if n < 10 then Char.ofNat ('0'.toNat + n) else Char.ofNat ('A'.toNat + n - 10)

/-- `quote_plus` with empty `safe` (bytewise model). -/
def quotePlus (s : String) : String :=
  ⟨s.data.flatMap (fun c =>
    if c.isAlphanum ∨ c = '_' ∨ c = '.' ∨ c = '-' ∨ c = '~' then [c]
    else if c = ' ' then ['+']
    else ['%', hexDigitUpper (c.toNat / 16 % 16), hexDigitUpper (c.toNat % 16)])⟩

/-- `urlencode(params, doseq=True)`. -/
def urlencodeSeq (params : List (String × PyVal)) : String :=
  "&".intercalate (params.flatMap (fun kv =>
    let k := quotePlus kv.1
    match kv.2 with
    | .str s => [k ++ "=" ++ quotePlus s]
    | .list xs => xs.map (fun x => k ++ "=" ++ quotePlus (pyToStr x))
    | .dict xs => xs.map (fun kk => k ++ "=" ++ quotePlus kk.1)
    | v => [k ++ "=" ++ quotePlus (pyToStr v)]))

/-! ## Candidate model and confidence scorer -/

/-- Confidence scores in exact hundredths: the source stores a float, but
every constant it ever adds (`0.4`, `0.2`, `0.1`, `0.05`, `0.15`, `0.5`,
`0.95`, `1.0`) is a multiple of `0.05`, so the score is an exact affine
image of an integer count of hundredths (`1.0 ↔ 100`); every comparison a
claim depends on has slack far above float rounding error. -/
abbrev Centi := Int

/-- `DateAPICandidate`.  `response_preview` and the `is_verified` /
`verification_result` mutation slots are omitted: the modelled control flow
carries each candidate's verification outcome alongside the candidate
instead of mutating it, and no claim mentions those fields. -/
structure DateAPICandidate where
  url : String
  method : String
  params : List (String × PyVal)
  dateParams : List (String × PyVal)
  confidence : Centi := 0
  resourceType : String := ""

/-- `API_PATH_PATTERNS` via `re.search(p, path, re.I)` on the lowered path
(the three `$`-anchored patterns are suffix tests; the bonus is applied
once, on the first hit). -/
def apiPathMatch (path : String) : Bool :=
  (["query", "search", "list", "find", "get", "fetch", "load", "data", "api"].any
    (fun t => strContains path t)) ∨
  strEnds path ".do" ∨ strEnds path ".json" ∨ strEnds path ".action"

def bulletinTokens : List String :=
  ["bulletin", "announcement", "disclosure", "querycompanybulletin"]

/-- Python `min(a, b)` (first argument on ties), kernel-reduction friendly. -/
def pyMinInt (a b : Int) : Int := if b < a then b else a

/-- `DateAPIExtractor._calculate_confidence`, in hundredths
(`0.4 ↔ 40`, …, and the final `min(confidence, 1.0)` is `pyMinInt c 100`). -/
def calculateConfidence (url method : String)
    (params dateParams : List (String × PyVal)) : Centi :=
  let c1 : Centi :=
    if dateParams.length = 2 then 40
    else if dateParams.length = 1 then 20
    else if dateParams.length > 2 then 10
    else 0
  let keysL := dateParams.map (fun kv => strLower kv.1)
  let c2 := if ¬ keysL.isEmpty ∧ keysL.all (· ∈ noiseParamNames) then c1 - 50 else c1
  let path := strLower (urlparse url).path
  let c3 := if apiPathMatch path then c2 + 10 else c2
  let c4 := if bulletinTokens.any (fun t => strContains path t) then c3 + 20 else c3
  let paramKeysL := params.map (fun kv => strLower kv.1)
  let pagCount :=
    (["page", "pageSize", "limit", "offset", "type", "category"].filter
      (fun p => strLower p ∈ paramKeysL)).length
  let c5 := c4 + 5 * (pagCount : Int)
  let c6 := if method = "POST" then c5 + 10 else c5
  pyMinInt c6 100

/-- The `_is_dateish_name` helper inside `_looks_like_real_date_filter`. -/
def isDateishName (k : String) : Bool :=
  let kl := strLower k
  if kl ∈ noiseParamNames then false
  else ["start", "begin", "from", "end", "to", "date", "time", "day"].any
    (fun t => strContains kl t)

/-- `DateAPIExtractor._looks_like_real_date_filter` (sanity filter against
cache-buster false positives).  Reason strings are the source's constants;
the f-string interpolations are dropped (no caller inspects them). -/
def looksLikeRealDateFilter (cand : DateAPICandidate) : Bool × String :=
  let urlL := strLower cand.url
  let keys := cand.dateParams.map Prod.fst
  if keys.isEmpty then (false, "无日期参数")
  else
    let nonNoise := keys.filter (fun k => ¬ (strLower k ∈ noiseParamNames))
    if nonNoise.isEmpty then (false, "仅包含噪声日期参数")
    else
      let hasDateish := nonNoise.any isDateishName
      let bulletinish := bulletinTokens.any (fun t => strContains urlL t)
      if strContains urlL "commonquery" ∧ ¬ bulletinish ∧ ¬ hasDateish then
        (false, "commonQuery 且缺少明确日期字段名")
      else if bulletinish then (true, "URL 命中公告/披露特征")
      else if ¬ hasDateish then (false, "缺少明确日期筛选字段名（可能是噪声参数误判）")
      else (true, "通过健全性检查")

/-! ## `format_date` (strptime `%Y-%m-%d` + per-format strftime) -/

def isLeap (y : Nat) : Bool := (y % 4 = 0 ∧ y % 100 ≠ 0) ∨ y % 400 = 0

def daysInMonth (y m : Nat) : Nat :=
  if m = 2 then (if isLeap y then 29 else 28)
  else if m ∈ [4, 6, 9, 11] then 30 else 31

def digitsToNat (l : List Char) : Nat :=
  l.foldl (fun a c => a * 10 + (c.toNat - '0'.toNat)) 0

/-- strptime's `%m` field: regex `1[0-2]|0[1-9]|[1-9]` (longest alternative
first, falling back to a single digit exactly as the regex backtracks). -/
def matchMonth : List Char → Option (Nat × List Char)
  | '1' :: c :: rest =>
    if '0' ≤ c ∧ c ≤ '2' then some (10 + (c.toNat - '0'.toNat), rest)
    else some (1, c :: rest)
  | '0' :: c :: rest =>
    if '1' ≤ c ∧ c ≤ '9' then some (c.toNat - '0'.toNat, rest) else Option.none
  | c :: rest =>
    if '1' ≤ c ∧ c ≤ '9' then some (c.toNat - '0'.toNat, rest) else Option.none
  | [] => Option.none

/-- strptime's `%d` field: regex `3[01]|[12]\d|0[1-9]|[1-9]`. -/
def matchDay : List Char → Option (Nat × List Char)
  | '3' :: c :: rest =>
    if c = '0' ∨ c = '1' then some (30 + (c.toNat - '0'.toNat), rest)
    else some (3, c :: rest)
  | c1 :: c2 :: rest =>
    if (c1 = '1' ∨ c1 = '2') ∧ c2.isDigit then
      some ((c1.toNat - '0'.toNat) * 10 + (c2.toNat - '0'.toNat), rest)
    else if c1 = '0' then
      (if '1' ≤ c2 ∧ c2 ≤ '9' then some (c2.toNat - '0'.toNat, rest) else Option.none)
    else if '1' ≤ c1 ∧ c1 ≤ '9' then some (c1.toNat - '0'.toNat, c2 :: rest)
    else Option.none
  | [c] => if '1' ≤ c ∧ c ≤ '9' then some (c.toNat - '0'.toNat, []) else Option.none
  | [] => Option.none

/-- `datetime.strptime(s, '%Y-%m-%d')`: 4-digit year, month/day fields as
above, whole string consumed, then the `datetime` constructor's range
check (year ≥ 1, day within the month). -/
def parseYmdDash (s : String) : Option (Nat × Nat × Nat) :=
  match s.data with
  | y1 :: y2 :: y3 :: y4 :: '-' :: rest =>
    if allDigits [y1, y2, y3, y4] then
      let y := digitsToNat [y1, y2, y3, y4]
      match matchMonth rest with
      | some (m, '-' :: rest2) =>
        match matchDay rest2 with
        | some (d, []) =>
          if 1 ≤ y ∧ d ≤ daysInMonth y m then some (y, m, d) else Option.none
        | _ => Option.none
      | _ => Option.none
    else Option.none
  | _ => Option.none

def padNum (width n : Nat) : String :=
  let s := toString n
  ⟨List.replicate (width - s.length) '0' ++ s.data⟩

/-- Days since 1970-01-01 in the proleptic Gregorian calendar
(Hinnant's days-from-civil formula, with floor division). -/
def daysFromCivil (y m d : Nat) : Int :=
  let yAdj : Int := (y : Int) - (if m ≤ 2 then 1 else 0)
  let era : Int := Int.fdiv yAdj 400
  let yoe : Int := yAdj - era * 400
  let mp : Int := ((m : Int) + 9) % 12
  let doy : Int := Int.fdiv (153 * mp + 2) 5 + (d : Int) - 1
  let doe : Int := yoe * 365 + Int.fdiv yoe 4 - Int.fdiv yoe 100 + doy
  era * 146097 + doe - 719468

/-- `DateAPIExtractor.format_date`.  `tz` is the host's UTC offset in
seconds (a naive `datetime.timestamp()` interprets the date as local
midnight), threaded as an explicit model parameter.  A non-string target
format compares unequal to every branch literal and falls through to the
source's final `return date_str`. -/
def formatDate (tz : Int) (dateStr : String) (fmt : PyVal) : String :=
  match parseYmdDash dateStr with
  | Option.none => dateStr
  | some (y, m, d) =>
    match fmt with
    | .str f =>
      if f = "YYYY-MM-DD" then padNum 4 y ++ "-" ++ padNum 2 m ++ "-" ++ padNum 2 d
      else if f = "YYYYMMDD" then padNum 4 y ++ padNum 2 m ++ padNum 2 d
      else if f = "YYYY/MM/DD" then padNum 4 y ++ "/" ++ padNum 2 m ++ "/" ++ padNum 2 d
      else if f = "timestamp_s" then toString (daysFromCivil y m d * 86400 - tz)
      else if f = "timestamp_ms" then toString ((daysFromCivil y m d * 86400 - tz) * 1000)
      else if f = "YYYY-MM-DD HH:MM:SS" then
        padNum 4 y ++ "-" ++ padNum 2 m ++ "-" ++ padNum 2 d ++ " 00:00:00"
      else dateStr
    | _ => dateStr

/-! ## Replay builder -/

def dictSet (xs : List (String × PyVal)) (k : String) (v : PyVal) :
    List (String × PyVal) :=
  match xs with
  | [] => [(k, v)]
  | (k', v') :: rest => if k' = k then (k, v) :: rest else (k', v') :: dictSet rest k v

def dictHas (xs : List (String × PyVal)) (k : String) : Bool := (xs.lookup k).isSome

/-- The array-substitution test of `build_replay_url`'s loop: the original
parameter value is an array, or the lowercased name is one of the
range-ish literals. -/
def replArrayCond (cand : DateAPICandidate) (pname : String) : Bool :=
  (match cand.params.lookup pname with
   | some (.list _) => true
   | _ => false) ||
  (["sedate", "daterange", "date_range"] : List String).contains (strLower pname)

/-- One iteration of `build_replay_url`'s date-substitution loop
(array/range-named parameters get `[start, end]`, start-ish names the
start date, end-ish names the end date, anything else the start date). -/
def replaceDateParam (tz : Int) (cand : DateAPICandidate) (startDate endDate : String)
    (np : List (String × PyVal)) (kv : String × PyVal) : List (String × PyVal) :=
  let pname := kv.1
  let fmt := kv.2
  let nameL := strLower pname
  if replArrayCond cand pname then
    dictSet np pname (.list [.str (formatDate tz startDate fmt),
                             .str (formatDate tz endDate fmt)])
  else
    let newV :=
      if ["start", "begin", "from"].any (fun t => strContains nameL t) then
        formatDate tz startDate fmt
      else if ["end", "to"].any (fun t => strContains nameL t) then
        formatDate tz endDate fmt
      else formatDate tz startDate fmt
    dictSet np pname (.str newV)

/-- The JSONP-callback normalization block of `build_replay_url`
(`jsonCallBack`/`callback` entries are reset to the fixed token). -/
def normalizeCb1 (np0 : List (String × PyVal)) : List (String × PyVal) :=
  if dictHas np0 "jsonCallBack" then dictSet np0 "jsonCallBack" (.str "jsonCallback")
  else np0

def normalizeCallbacks (np0 : List (String × PyVal)) : List (String × PyVal) :=
  if dictHas (normalizeCb1 np0) "callback" then
    dictSet (normalizeCb1 np0) "callback" (.str "jsonCallback")
  else normalizeCb1 np0

/-- The sse.com.cn default-callback block of `build_replay_url`. -/
def addSseCallback (url : String) (np2 : List (String × PyVal)) :
    List (String × PyVal) :=
  if strContains (strLower (urlparse url).netloc) "sse.com.cn" ∧
      ¬ dictHas np2 "jsonCallBack" ∧ ¬ dictHas np2 "callback" then
    dictSet np2 "jsonCallBack" (.str "jsonCallback")
  else np2

/-- The pagination-defaults block of `build_replay_url`. -/
def ensurePageNo (np3 : List (String × PyVal)) : List (String × PyVal) :=
  if ¬ dictHas np3 "pageHelp.pageNo" ∧ ¬ dictHas np3 "pageNo" then
    dictSet np3 "pageHelp.pageNo" (.str "1")
  else np3

def ensurePagination (np3 : List (String × PyVal)) : List (String × PyVal) :=
  if ¬ dictHas (ensurePageNo np3) "pageHelp.pageSize" ∧
      ¬ dictHas (ensurePageNo np3) "pageSize" then
    dictSet (ensurePageNo np3) "pageHelp.pageSize" (.str "25")
  else ensurePageNo np3

/-- The `new_params` computation of `DateAPIExtractor.build_replay_url`:
date substitution, JSONP callback normalization, the sse.com.cn callback
default, and the pagination defaults, in source order. -/
def buildReplayParams (tz : Int) (cand : DateAPICandidate)
    (startDate endDate : String) : List (String × PyVal) :=
  ensurePagination (addSseCallback cand.url (normalizeCallbacks
    (cand.dateParams.foldl (replaceDateParam tz cand startDate endDate) cand.params)))

/-- `DateAPIExtractor.build_replay_url`: GET requests re-encode the new
parameters into the URL's query (all other URL components preserved),
POST requests return the original URL plus the parameter dict as body. -/
def buildReplayUrl (tz : Int) (cand : DateAPICandidate) (startDate endDate : String) :
    String × List (String × PyVal) :=
  let np := buildReplayParams tz cand startDate endDate
  let parsed := urlparse cand.url
  if cand.method = "GET" then
    (urlunparse { parsed with query := urlencodeSeq np }, [])
  else (cand.url, np)

/-! ## `json.loads` model

Recursive-descent JSON parser producing `PyVal` (fuel-indexed for
termination; the fuel bound `length + 2` dominates the nesting depth).
Model restrictions, each irrelevant to the claims in scope: JSON numbers
are integers (a fractional/exponent literal fails the parse), `\uXXXX`
escapes decode to the code point (no surrogate pairing), and duplicate
object keys keep the first occurrence where CPython keeps the last. -/

def jsonWsChar (c : Char) : Bool := c = ' ' ∨ c = '\t' ∨ c = '\n' ∨ c = '\r'

def jsonStrAux : List Char → List Char → Option (String × List Char)
  | [], _ => Option.none
  | '"' :: r, acc => some (⟨acc.reverse⟩, r)
  | '\\' :: e :: r, acc =>
    if e = '"' then jsonStrAux r ('"' :: acc)
    else if e = '\\' then jsonStrAux r ('\\' :: acc)
    else if e = '/' then jsonStrAux r ('/' :: acc)
    else if e = 'n' then jsonStrAux r ('\n' :: acc)
    else if e = 't' then jsonStrAux r ('\t' :: acc)
    else if e = 'r' then jsonStrAux r ('\r' :: acc)
    else if e = 'b' then jsonStrAux r ('\x08' :: acc)
    else if e = 'f' then jsonStrAux r ('\x0c' :: acc)
    else if e = 'u' then
      match r with
      | a :: b :: c :: d :: r2 =>
        if isHexDigit a ∧ isHexDigit b ∧ isHexDigit c ∧ isHexDigit d then
          jsonStrAux r2
            (Char.ofNat (((hexVal a * 16 + hexVal b) * 16 + hexVal c) * 16 + hexVal d) :: acc)
        else Option.none
      | _ => Option.none
    else Option.none
  | c :: r, acc =>
    if c.toNat < 32 then Option.none else jsonStrAux r (c :: acc)

/-- JSON number (integer subset; see the module note). -/
def jsonNum (l : List Char) : Option (PyVal × List Char) :=
  let negRest : Bool × List Char := match l with | '-' :: r => (true, r) | _ => (false, l)
  let l1 := negRest.2
  match l1.headD ' ' with
  | c =>
    if ¬ c.isDigit then Option.none
    else
      let ds := l1.takeWhile Char.isDigit
      let rest := l1.drop ds.length
      if ds.length > 1 ∧ ds.headD '0' = '0' then Option.none
      else
        match rest with
        | '.' :: _ => Option.none
        | 'e' :: _ => Option.none
        | 'E' :: _ => Option.none
        | _ =>
          let n : Int := digitsToNat ds
          some (.int (if negRest.1 then -n else n), rest)

mutual
def jsonVal : Nat → List Char → Option (PyVal × List Char)
  | 0, _ => Option.none
  | fuel + 1, l =>
    match l.dropWhile jsonWsChar with
    | 't' :: 'r' :: 'u' :: 'e' :: r => some (.bool true, r)
    | 'f' :: 'a' :: 'l' :: 's' :: 'e' :: r => some (.bool false, r)
    | 'n' :: 'u' :: 'l' :: 'l' :: r => some (.none, r)
    | '"' :: r => (jsonStrAux r []).map (fun p => (.str p.1, p.2))
    | '[' :: r =>
      (match r.dropWhile jsonWsChar with
       | ']' :: r2 => some (.list [], r2)
       | _ => jsonArr fuel r [])
    | '\x7b' :: r =>
      (match r.dropWhile jsonWsChar with
       | '\x7d' :: r2 => some (.dict [], r2)
       | _ => jsonObj fuel r [])
    | rest => jsonNum rest

def jsonArr : Nat → List Char → List PyVal → Option (PyVal × List Char)
  | 0, _, _ => Option.none
  | fuel + 1, l, acc =>
    match jsonVal fuel l with
    | some (v, r) =>
      (match r.dropWhile jsonWsChar with
       | ',' :: r2 => jsonArr fuel r2 (acc ++ [v])
       | ']' :: r2 => some (.list (acc ++ [v]), r2)
       | _ => Option.none)
    | Option.none => Option.none

def jsonObj : Nat → List Char → List (String × PyVal) → Option (PyVal × List Char)
  | 0, _, _ => Option.none
  | fuel + 1, l, acc =>
    match l.dropWhile jsonWsChar with
    | '"' :: r =>
      (match jsonStrAux r [] with
       | some (k, r2) =>
         (match r2.dropWhile jsonWsChar with
          | ':' :: r3 =>
            (match jsonVal fuel r3 with
             | some (v, r4) =>
               (match r4.dropWhile jsonWsChar with
                | ',' :: r5 => jsonObj fuel r5 (acc ++ [(k, v)])
                | '\x7d' :: r5 => some (.dict (acc ++ [(k, v)]), r5)
                | _ => Option.none)
             | Option.none => Option.none)
          | _ => Option.none)
       | Option.none => Option.none)
    | _ => Option.none
end

/-- `json.loads` (returns `none` where CPython raises `JSONDecodeError`). -/
def jsonLoads (s : String) : Option PyVal :=
  match jsonVal (s.data.length + 2) s.data with
  | some (v, r) => if (r.dropWhile jsonWsChar).isEmpty then some v else Option.none
  | Option.none => Option.none

/-! ## Response interpreter (`_parse_response`, `_validate_response`) -/

/-- The JSONP-unwrap regex `^[a-zA-Z_][a-zA-Z0-9_]*\s*\((.*)\)\s*;?\s*$`
(DOTALL, greedy): identifier, optional whitespace, `(`, then the capture
runs to the last `)` whose tail is whitespace, an optional `;`, and
whitespace.  On no match the text is returned unchanged. -/
def jsonpUnwrap (s : String) : String :=
  match s.data with
  | c :: _ =>
    if c.isAlpha ∨ c = '_' then
      let identRest := s.data.dropWhile (fun x => x.isAlphanum ∨ x = '_')
      match identRest.dropWhile isPyWs with
      | '(' :: inner =>
        let r0 := inner.reverse.dropWhile isPyWs
        let r1 := match r0 with
          | ';' :: rest => rest.dropWhile isPyWs
          | _ => r0
        (match r1 with
         | ')' :: mid => ⟨mid.reverse⟩
         | _ => s)
      | _ => s
    else s
  | [] => s

/-- `DateAPIExtractor._parse_response`: strip, drop a `/**/` guard, unwrap
the `?(...)` placeholder form, unwrap JSONP, then `json.loads`; any parse
failure — and a JSON `null`, which also becomes Python `None` — yields
`PyVal.none`. -/
def parseResponse (text0 : String) : PyVal :=
  let t1 := strStrip text0
  let t2 := if strStarts t1 "/**/" then strStrip (strDrop t1 4) else t1
  let t3 :=
    if strStarts t2 "?(" ∧ strEnds t2 ")" then ⟨(t2.data.drop 2).dropLast⟩ else t2
  let t4 := jsonpUnwrap t3
  match jsonLoads t4 with
  | some v => v
  | Option.none => .none

/-- Python `==` restricted to the comparisons `_validate_response`
performs: its ok-tuple holds only scalars, and comparing a container to a
scalar is `False` in Python, so scalar semantics (with `bool`/`int`
numeric cross-equality) are exact here. -/
def pyNumVal : PyVal → Option Int
  | .bool b => some (if b then 1 else 0)
  | .int n => some n
  | _ => Option.none

def pyEqV (a b : PyVal) : Bool :=
  match pyNumVal a, pyNumVal b with
  | some x, some y => x = y
  | _, _ =>
    match a, b with
    | .none, .none => true
    | .str s, .str t => s = t
    | _, _ => false

def respDataKeys : List String :=
  ["data", "result", "list", "items", "records", "rows", "content", "reports", "articles"]

/-- Inner scan of `_validate_response`: first key of `respDataKeys` bound to
a list inside a nested dict. -/
def firstSubListLen (sub : List (String × PyVal)) : Option Nat :=
  respDataKeys.firstM (fun k =>
    match sub.lookup k with
    | some (.list xs) => some xs.length
    | _ => Option.none)

/-- Outer scan: a list value breaks immediately; a dict value updates the
running count from the inner scan and the outer loop continues. -/
def countScan : List String → List (String × PyVal) → Nat → Nat
  | [], _, acc => acc
  | k :: ks, kvs, acc =>
    match kvs.lookup k with
    | some (.list xs) => xs.length
    | some (.dict sub) => countScan ks kvs ((firstSubListLen sub).getD acc)
    | _ => countScan ks kvs acc

/-- The `pageHelp` refinement: `max` with `pageHelp.data`'s length, then
`max` with `min(total, 100)` for a positive integer `total` (`bool` counts
as `int`, as in CPython). -/
def pageHelpCount (kvs : List (String × PyVal)) (acc : Nat) : Nat :=
  match kvs.lookup "pageHelp" with
  | some (.dict ph) =>
    let acc1 :=
      match (ph.lookup "data").getD (.list []) with
      | .list xs => max acc xs.length
      | _ => acc
    (match pyNumVal ((ph.lookup "total").getD (.int 0)) with
     | some t => if t > 0 then max acc1 (min t.toNat 100) else acc1
     | Option.none => acc1)
  | _ => acc

def okCodeVals : List PyVal :=
  [.none, .int 0, .int 200, .str "0", .str "200", .str "success"]

/-! ## Passive traffic analysis (`analyze_requests` and helpers)

Captured requests are the browser controller's request records; the fields
below are exactly the keys `_analyze_single_request` and
`_apply_initiator_bonus` read (`url`, `method`, `postData`, `resourceType`,
`initiator.type`, `initiator.stack.callFrames[*].{functionName,url}`),
with the source's `.get(..., default)` defaults baked in. -/

structure Initiator where
  initType : String := ""
  frames : List (String × String) := []

structure NetRequest where
  url : String := ""
  method : String := "GET"
  postData : String := ""
  resourceType : String := ""
  initiator : Option Initiator := Option.none

structure NetworkRequests where
  allRequests : List NetRequest := []
  apiRequests : List NetRequest := []

/-- Python `dict.update` on the assoc-list dict model (existing keys are
updated in place, new keys appended). -/
def dictUpdate (base upd : List (String × PyVal)) : List (String × PyVal) :=
  upd.foldl (fun acc kv => dictSet acc kv.1 kv.2) base

/-- The flat parameter map of a captured request in
`_analyze_single_request`: URL query parameters, updated for POST bodies
by the JSON parse (dict results only) or the `parse_qs` fallback on JSON
failure. -/
def requestFlatParams (req : NetRequest) : List (String × PyVal) :=
  let flat0 := flattenQs (parseQs (urlparse req.url).query false)
  if ¬ (req.postData = "") ∧ strUpper req.method = "POST" then
    match jsonLoads req.postData with
    | some (.dict kvs) => dictUpdate flat0 kvs
    | some _ => flat0
    | Option.none => dictUpdate flat0 (flattenQs (parseQs req.postData false))
  else flat0

/-- `DateAPIExtractor._analyze_single_request`.  A `resourceType` of `""`
stands for the absent key, so the candidate records `"unknown"` for it as
the source's `.get('resourceType', 'unknown')` does. -/
def analyzeSingleRequest (req : NetRequest) : Option DateAPICandidate :=
  if req.url = "" then Option.none
  else
    let method := strUpper req.method
    let flat := requestFlatParams req
    let dps := identifyDateParams flat
    if dps.isEmpty then Option.none
    else
      some { url := req.url
             method := method
             params := flat
             dateParams := dps
             confidence := calculateConfidence req.url method flat dps
             resourceType := if req.resourceType = "" then "unknown" else req.resourceType }

/-- `url.split('/')[-1]`. -/
def lastUrlSegment (u : String) : String := (strSplitChar '/' u).getLastD ""

def interactionKeywords : List String :=
  ["click", "change", "submit", "search", "query", "onchange", "onclick",
   "handleclick", "handlechange", "datepicker", "laydate", "calendar"]

def noiseStackKeywords : List String :=
  ["setinterval", "settimeout", "heartbeat", "ping", "beacon", "analytics",
   "tracker", "log", "monitor"]

/-- `DateAPIExtractor._apply_initiator_bonus` (P1-6 attribution
adjustment), in hundredths. -/
def applyInitiatorBonus (c : DateAPICandidate) (req : NetRequest) : DateAPICandidate :=
  match req.initiator with
  | Option.none => c
  | some ini =>
    let stackInfo := strLower (" ".intercalate
      ((ini.frames.take 5).map (fun fr => fr.1 ++ "@" ++ lastUrlSegment fr.2)))
    let conf1 :=
      if interactionKeywords.any (fun kw => strContains stackInfo kw) then
        c.confidence + 15
      else c.confidence
    let conf2 :=
      if noiseStackKeywords.any (fun kw => strContains stackInfo kw) then conf1 - 20
      else conf1
    let conf3 :=
      if (["preload", "preflight", "other"] : List String).contains ini.initType then
        conf2 - 10
      else conf2
    { c with confidence := conf3 }

/-- Stable insertion into a descending-by-confidence list (a new element
goes after every element with confidence ≥ its own, which is exactly where
CPython's stable `sort(key=..., reverse=True)` leaves it). -/
def insertDesc (c : DateAPICandidate) : List DateAPICandidate → List DateAPICandidate
  | [] => [c]
  | x :: xs => if x.confidence < c.confidence then c :: x :: xs else x :: insertDesc c xs

/-- `candidates.sort(key=lambda c: c.confidence, reverse=True)`: a stable
descending sort (stable sorted output is unique, so this equals CPython's
timsort result). -/
def sortByConfDesc (l : List DateAPICandidate) : List DateAPICandidate :=
  l.foldl (fun acc c => insertDesc c acc) []

/-- `DateAPIExtractor.analyze_requests` (P0-2 resource-type filter, P1-6
initiator bonus, and the `+0.2` API-subset bonus applied after
`_calculate_confidence`'s clamp). -/
def analyzeRequests (nr : NetworkRequests) : List DateAPICandidate :=
  let apiCands := nr.apiRequests.foldl (fun acc req =>
    match analyzeSingleRequest req with
    | some c => acc ++ [applyInitiatorBonus { c with confidence := c.confidence + 20 } req]
    | Option.none => acc) []
  let seen0 := apiCands.map (·.url)
  let scanned := nr.allRequests.foldl
    (fun (st : List DateAPICandidate × List String) req =>
      if req.url ∈ st.2 then st
      else
        let rtL := strLower req.resourceType
        if ¬ (req.resourceType = "") ∧
            ¬ ((["xhr", "fetch", "script", "document", ""] : List String).contains rtL) then
          st
        else
          match analyzeSingleRequest req with
          | some c => (st.1 ++ [applyInitiatorBonus c req], st.2 ++ [req.url])
          | Option.none => st)
    (apiCands, seen0)
  sortByConfDesc scanned.1

/-- `DateAPIExtractor._validate_response` — returns
`(is_valid, data_count, error)`. -/
def validateResponse (data : PyVal) : Bool × Nat × Option String :=
  match data with
  | .none => (false, 0, some "无法解析响应为 JSON")
  | .dict kvs =>
    (match kvs.lookup "success" with
     | some (.bool false) =>
       let msg :=
         let m := (kvs.lookup "message").getD .none
         let e := (kvs.lookup "error").getD .none
         if pyTruthy m then pyToStr m
         else if pyTruthy e then pyToStr e
         else "API 返回 success=false"
       (false, 0, some msg)
     | _ =>
       let code := (kvs.lookup "code").getD .none
       if ¬ (okCodeVals.any (pyEqV code)) ∧ pyTruthy code then
         (false, 0, some ("API 返回错误码: " ++ pyToStr code))
       else
         let n := pageHelpCount kvs (countScan respDataKeys kvs 0)
         if n = 0 then (false, 0, some "响应中未找到数据列表或列表为空")
         else (true, n, Option.none))
  | _ => (false, 0, some "响应不是对象格式")

/-! ## Collaborator behaviour and `verify_candidate`

The browser and LLM collaborators are modelled as an oracle: each call
site the layers reach is a field of `World` (or of `Behavior` for the
Layer-2/3 bodies), whose value is either a result or a raised exception.
The `page.evaluate` outcome is raw `PyVal` — a hostile or unusual page
controls that JSON entirely.  The Layer-2 and Layer-3 bodies (DOM-widget
automation and vision analysis, `_try_layer2_dom_detect` /
`_try_layer3_llm_vision` lines 1017–1111 and 1683–1766) are modelled as
opaque collaborator-driven computations delivering either a layer-result
dict or an exception: both source functions wrap their entire body in the
same `try/except Exception` that `tryAll` embeds, and no claim in scope
depends on their internals.  Their possible side effect on
`self.candidates` (re-running `analyze_requests` on new traffic) is
elided: no claim reads `candidates` on a Layer-2/3 path. -/

structure HttpResp where
  status : Nat
  text : String

/-- Collaborator behaviour visible to Layers 0 and 1. -/
structure World where
  browserPresent : Bool := false
  pagePresent : Bool := false
  pageUrl : String := ""
  scanEval : Py PyVal := .ok .none
  hasGetIntercepted : Bool := false
  intercepted : Py PyVal := .ok (.list [])
  http : String → String → List (String × PyVal) → Py HttpResp :=
    fun _ _ _ => .error (.other "no network")
  today : String := "2026-10-12"
  tz : Int := 0
  llmPresent : Bool := false

/-- The per-layer result dict shape shared by `_try_layer1_api_direct`,
`_try_layer2_dom_detect` and `_try_layer3_llm_vision`: every return site
of those functions populates `success`, an `error` string on failure, and
the success payload fields. -/
structure LayerResult where
  success : Bool := false
  error : Option String := Option.none
  dataCount : Nat := 0
  bestCandidate : Option DateAPICandidate := Option.none
  replayedData : Option PyVal := Option.none

structure Behavior extends World where
  layer2Body : Py LayerResult := .ok {}
  layer3Body : Py LayerResult := .ok {}

/-- Code-point lexicographic `<` on char lists (Python string ordering). -/
def charListLt : List Char → List Char → Bool
  | [], [] => false
  | [], _ :: _ => true
  | _ :: _, [] => false
  | a :: as, b :: bs =>
    if a.toNat < b.toNat then true
    else if b.toNat < a.toNat then false
    else charListLt as bs

/-- Python `a < b` on strings. -/
def strLt (a b : String) : Bool := charListLt a.data b.data

/-- Python `min` on strings (code-point lexicographic, first on ties). -/
def pyMinStr (a b : String) : String := if strLt b a then b else a

structure VerifyResult where
  success : Bool
  dataCount : Nat
  error : Option String := Option.none
  rawResponse : String := ""
  parsedData : Option PyVal := Option.none

/-- `DateAPIExtractor.verify_candidate`: clamp the end date to today,
clamp the start date to the effective end, build the replay request, then
(inside the catch-all) issue it through the HTTP oracle and interpret the
response.  Request headers are pure data handed to `httpx` and do not
influence the modelled observables. -/
def verifyCandidate (w : World) (cand : DateAPICandidate) (startDate endDate : String) :
    VerifyResult :=
  let effEnd := if strLt w.today endDate then pyMinStr endDate w.today else endDate
  let effStart := pyMinStr startDate effEnd
  let urlBody := buildReplayUrl w.tz cand effStart effEnd
  tryAll (do
      let resp ← w.http cand.method urlBody.1 urlBody.2
      if resp.status ≠ 200 then
        pure { success := false, dataCount := 0,
               error := some ("HTTP " ++ toString resp.status) }
      else
        let previewText := strTake resp.text 5000
        let data := parseResponse resp.text
        let v := validateResponse data
        pure { success := v.1, dataCount := v.2.1, error := v.2.2
               rawResponse := strTake previewText 500
               parsedData := if v.1 then some data else Option.none })
    (fun m => { success := false, dataCount := 0, error := some m })

/-! ## Layer 1 — `_try_layer1_api_direct` -/

def failLayer (msg : String) : LayerResult := { success := false, error := some msg }

/-- The candidate-verification loop of `_try_layer1_api_direct`: every
candidate in the list is verified; the running best is replaced only by a
verifying candidate with a strictly larger item count that also passes
`_looks_like_real_date_filter` (checked only on such improvements). -/
def layer1Pick (w : World) (startDate endDate : String) :
    List DateAPICandidate → Option (DateAPICandidate × VerifyResult) → Nat →
    Option (DateAPICandidate × VerifyResult)
  | [], best, _ => best
  | c :: rest, best, bestCount =>
    let r := verifyCandidate w c startDate endDate
    if r.success ∧ r.dataCount > bestCount then
      if (looksLikeRealDateFilter c).1 then layer1Pick w startDate endDate rest (some (c, r)) r.dataCount
      else layer1Pick w startDate endDate rest best bestCount
    else layer1Pick w startDate endDate rest best bestCount

/-- `DateAPIExtractor._try_layer1_api_direct`.  Also returns the candidate
list `analyze_requests` assigned to `self.candidates`.  The source's
enclosing `try/except` is dead in the model (the body is total), matching
the fact that its body only raises on collaborator misbehaviour already
routed through `verify_candidate`'s own catch-all. -/
def tryLayer1 (w : World) (nr : NetworkRequests) (startDate endDate : String) :
    LayerResult × List DateAPICandidate :=
  let cands := analyzeRequests nr
  if cands.isEmpty then (failLayer "未在网络请求中发现日期相关的 API", cands)
  else
    match layer1Pick w startDate endDate (cands.take 3) Option.none 0 with
    | some cr =>
      ({ success := true, bestCandidate := some cr.1, dataCount := cr.2.dataCount,
         replayedData := cr.2.parsedData }, cands)
    | Option.none =>
      (failLayer "所有候选 API 验证失败或被判定为假阳性（重放未得到可信日期筛选数据）", cands)

/-! ## Layer 0 — `_try_layer0_global_var_scan` and helpers

The `KNOWN_SITE_PATTERNS` lookup only parameterizes the JavaScript text
injected into the page; the scan's outcome is the behaviour's
`scanEval` value, so the lookup has no separate observable effect in the
model. -/

/-- The result dict of `_try_layer0_global_var_scan`.  `error` is kept as
a raw `PyVal` because the failure branch copies `scan_result.get('error',…)`
— collaborator-controlled data — verbatim, and the orchestrator later
*concatenates* it to a string (which raises on non-strings). -/
structure Layer0Result where
  success : Bool
  error : PyVal := .str ""
  varName : PyVal := .none
  apiUrl : PyVal := .none
  dateParams : PyVal := .none
  allParams : PyVal := .none
  dateFormat : PyVal := .str "YYYY-MM-DD"
  isJsonp : PyVal := .bool false
  extraInfo : PyVal := .dict []

def failL0 (e : PyVal) : Layer0Result := { success := false, error := e }

/-- The debug-log loop of `_execute_global_var_scan` over the first three
discovered configs: each iteration evaluates `cfg.get('var_name')`,
`cfg.get('api_url','')[:60]` and `list(cfg.get('date_params',{}).keys())`
inside the surrounding `try`. -/
def logScanConfigs : List PyVal → Py Unit
  | [] => pure ()
  | cfg :: rest => do
    let _ ← pyDictGet cfg "var_name" .none
    let au ← pyDictGet cfg "api_url" (.str "")
    let _ ← pySlice au 60
    let dp ← pyDictGet cfg "date_params" (.dict [])
    let _ ← pyKeys dp
    logScanConfigs rest

/-- `DateAPIExtractor._execute_global_var_scan`: evaluate the injected
scan script (outcome `w.scanEval`), run the debug-log accesses on a truthy
result, and return it; any exception becomes `{found: False, error: …}`. -/
def executeGlobalVarScan (w : World) : PyVal :=
  tryAll (do
      let result ← w.scanEval
      if pyTruthy result then do
        let sv ← pyDictGet result "scanned_vars" (.list [])
        let _ ← pyLen sv
        let cfgsV ← pyDictGet result "api_configs" (.list [])
        let _ ← pyLen cfgsV
        let cfgs3 ← pySlice cfgsV 3
        let cfgsL ← pyIter cfgs3
        logScanConfigs cfgsL
        pure result
      else pure result)
    (fun m => .dict [("found", .bool false), ("error", .str m)])

/-- `DateAPIExtractor._analyze_intercepted_apis` (P0-3 XHR/fetch hook
fallback): builds well-formed api-config dicts out of hook records. -/
def analyzeIntercepted (records : PyVal) : Py PyVal := do
  if ¬ pyTruthy records then pure .none
  else do
    let recs ← pyIter records
    let cfgs ← recs.foldlM (fun (acc : List PyVal) record => do
      let urlV ← pyDictGet record "url" (.str "")
      if ¬ pyTruthy urlV then pure acc
      else do
        let url0 ← pyExpectStr urlV
        let urlLower := strLower url0
        if ([".css", ".png", ".jpg", ".gif", ".svg", ".ico"].any
            (fun ext => strEnds urlLower ext)) then pure acc
        else if ¬ strStarts url0 "//" ∧ strStarts url0 "/" then pure acc
        else
          let url1 := if strStarts url0 "//" then "https:" ++ url0 else url0
          if ¬ strStarts url1 "http" then pure acc
          else
            let parsed := urlparse url1
            let flat := flattenQs (parseQs parsed.query false)
            let dps := identifyDateParams flat
            if dps.isEmpty then pure acc
            else do
              let isJsonp := strContains urlLower "callback" ∨
                strContains urlLower "jsonp" ∨ strContains urlLower "jsonCallBack"
              let stackV ← pyDictGet record "stack" (.str "")
              let stack500 ← pySlice stackV 500
              let typeV ← pyDictGet record "type" (.str "unknown")
              let methodV ← pyDictGet record "method" (.str "GET")
              let cfg := PyVal.dict
                [("var_name", .str ("intercepted_" ++ pyToStr typeV)),
                 ("api_url", .str ((strSplitChar '?' url1).headD "")),
                 ("date_params", .dict dps),
                 ("all_params", .dict flat),
                 ("is_jsonp", .bool isJsonp),
                 ("date_format", (dps.map Prod.snd).headD (.str "YYYY-MM-DD")),
                 ("extra_info", .dict
                   [("source", .str "xhr_fetch_hook"),
                    ("call_stack", stack500),
                    ("http_method", methodV)])]
              pure (acc ++ [cfg])) []
    if cfgs.isEmpty then
      pure (.dict [("found", .bool false), ("error", .str "钩子记录中未发现含日期参数的 API")])
    else
      pure (.dict [("found", .bool true), ("api_configs", .list cfgs),
        ("scanned_vars", .list ((List.range cfgs.length).map
          (fun i => .str ("hook_" ++ toString i))))])

/-- The best-config selection loop of `_try_layer0_global_var_scan`:
break on the first config with ≥ 2 date params, else remember the first
config with any date params. -/
def pickBestConfig : List PyVal → Option PyVal → Py (Option PyVal)
  | [], best => pure best
  | c :: rest, best => do
    let dp ← pyDictGet c "date_params" (.dict [])
    if pyTruthy dp then do
      let n ← pyLen dp
      if n ≥ 2 then pure (some c)
      else if best.isNone then pickBestConfig rest (some c)
      else pickBestConfig rest best
    else pickBestConfig rest best

/-- `DateAPIExtractor._try_layer0_global_var_scan`. -/
def tryLayer0 (w : World) : Layer0Result :=
  tryAll (do
      if ¬ (w.browserPresent ∧ w.pagePresent) then
        pure (failL0 (.str "浏览器未就绪"))
      else do
        let scan0 := executeGlobalVarScan w
        let needHook ←
          if ¬ pyTruthy scan0 then pure true
          else do
            let f ← pyDictGet scan0 "found" .none
            pure (! pyTruthy f)
        let scan1 ←
          if needHook ∧ w.browserPresent then do
            let inter ← if w.hasGetIntercepted then w.intercepted else pure (.list [])
            if pyTruthy inter then do
              let hr ← analyzeIntercepted inter
              let hookFound ←
                if pyTruthy hr then do
                  let f ← pyDictGet hr "found" .none
                  pure (pyTruthy f)
                else pure false
              pure (if hookFound then hr else scan0)
            else pure scan0
          else pure scan0
        let notFound ←
          if ¬ pyTruthy scan1 then pure true
          else do
            let f ← pyDictGet scan1 "found" .none
            pure (! pyTruthy f)
        if notFound then do
          let ev ← pyDictGet scan1 "error" (.str "未找到包含 API 配置的全局变量")
          pure (failL0 ev)
        else do
          let cfgsV ← pyDictGet scan1 "api_configs" (.list [])
          if ¬ pyTruthy cfgsV then
            pure (failL0 (.str "扫描到全局变量但未找到有效的 API 配置"))
          else do
            let cfgsL ← pyIter cfgsV
            let bestOpt ← pickBestConfig cfgsL Option.none
            let bc ← match bestOpt with
              | some b => pure b
              | Option.none => pyIndex0 cfgsV
            if ¬ pyTruthy bc then
              pure (failL0 (.str "未找到包含日期参数的 API 配置"))
            else do
              let vn ← pyDictGet bc "var_name" (.str "")
              let au ← pyDictGet bc "api_url" (.str "")
              let dp ← pyDictGet bc "date_params" (.dict [])
              let ap ← pyDictGet bc "all_params" (.dict [])
              let df ← pyDictGet bc "date_format" (.str "YYYY-MM-DD")
              let ij ← pyDictGet bc "is_jsonp" (.bool false)
              let ei ← pyDictGet bc "extra_info" (.dict [])
              pure { success := true, varName := vn, apiUrl := au, dateParams := dp,
                     allParams := ap, dateFormat := df, isJsonp := ij, extraInfo := ei })
    (fun m => failL0 (.str ("全局变量扫描异常: " ++ m)))

/-- Config-field key skip list of `_build_candidate_from_global_var`. -/
def objParamSkipTokens : List String :=
  ["url", "template", "selector", "element", "container", "target"]

/-- `DateAPIExtractor._build_candidate_from_global_var`: resolve the URL,
split real API parameters out of its query string, filter the JS object's
non-parameter fields, merge, infer the HTTP method, and attach the date
formats; any exception inside yields `None`. -/
def buildCandidateFromGlobalVar (w : World) (r : Layer0Result) :
    Option DateAPICandidate :=
  tryAll (do
      if ¬ pyTruthy r.apiUrl then pure Option.none
      else do
        let apiUrl0 ← pyExpectStr r.apiUrl
        let apiUrl1 :=
          if strStarts apiUrl0 "/" ∧ ¬ strStarts apiUrl0 "//" then
            (if w.browserPresent ∧ w.pagePresent ∧ ¬ (w.pageUrl = "") then
              let p := urlparse w.pageUrl
              p.scheme ++ "://" ++ p.netloc ++ apiUrl0
            else apiUrl0)
          else apiUrl0
        let apiUrl2 := if strStarts apiUrl1 "//" then "https:" ++ apiUrl1 else apiUrl1
        let hasQ := strContains apiUrl2 "?"
        let parsedU := urlparse apiUrl2
        let urlQueryParams : List (String × PyVal) :=
          if hasQ then
            (parseQs parsedU.query true).map (fun kv =>
              if (kv.1 = "jsonCallBack" ∨ kv.1 = "callback") ∧ ¬ kv.2.isEmpty ∧
                  kv.2.headD "" = "?" then
                (kv.1, PyVal.str "jsonCallback")
              else
                match kv.2 with
                | [v] => (kv.1, PyVal.str v)
                | vs => (kv.1, PyVal.list (vs.map PyVal.str)))
          else []
        let apiUrl3 :=
          if hasQ then urlunparse { parsedU with query := "" } else apiUrl2
        let rawObjParams ← pyItems r.allParams
        let objParams := rawObjParams.foldl (fun acc kv =>
          let skipUrlVal : Bool :=
            match kv.2 with
            | .str s => (strStarts s "http" ∨ strStarts s "//" ∨ strStarts s "/") ∧
                strContains (strDrop s 2) "/"
            | _ => false
          if skipUrlVal then acc
          else if objParamSkipTokens.any (fun t => strContains (strLower kv.1) t) then acc
          else
            match kv.2 with
            | .dict _ => acc
            | _ => acc ++ [(kv.1, kv.2)]) []
        let allParams1 := objParams.foldl
          (fun acc kv => if dictHas acc kv.1 then acc else acc ++ [(kv.1, kv.2)])
          urlQueryParams
        let dpKeys ← pyKeys r.dateParams
        let allParams2 := dpKeys.foldl
          (fun acc dp => if dictHas acc dp then acc else acc ++ [(dp, .str "")])
          allParams1
        let vnS ← pyExpectStr r.varName
        let varNameL := strLower vnS
        let urlPath := strLower (urlparse apiUrl3).path
        let isJsonp := pyTruthy r.isJsonp ∨ dictHas allParams2 "jsonCallBack" ∨
          dictHas allParams2 "callback"
        let method :=
          if isJsonp then "GET"
          else if ["history", "search", "query"].any (fun kw => strContains varNameL kw) then
            "POST"
          else if ["annlist", "search"].any (fun kw => strContains urlPath kw) then "POST"
          else "GET"
        let dpf := dpKeys.map (fun k => (k, r.dateFormat))
        if dpf.isEmpty then do
          let srcV ← pyDictGet r.extraInfo "source" .none
          let isFlagObj : Bool := match srcV with | .str s => s == "flag_obj" | _ => false
          if isFlagObj then
            pure (some { url := apiUrl3, method := method,
                         params := dictSet allParams2 "seDate" (.list []),
                         dateParams := [("seDate", r.dateFormat)],
                         confidence := 95, resourceType := "global_var" })
          else
            pure (some { url := apiUrl3, method := method, params := allParams2,
                         dateParams := [], confidence := 95,
                         resourceType := "global_var" })
        else
          pure (some { url := apiUrl3, method := method, params := allParams2,
                       dateParams := dpf, confidence := 95,
                       resourceType := "global_var" }))
    (fun _ => Option.none)

/-! ## Orchestrator — `extract_with_three_layers` -/

structure GlobalVarAPIConfig where
  varName : PyVal
  apiUrl : PyVal
  dateParams : PyVal
  allParams : PyVal
  dateFormat : PyVal
  isJsonp : PyVal
  extraInfo : PyVal

structure DateAPIExtractionResult where
  success : Bool
  layer : Int
  candidates : List DateAPICandidate := []
  bestCandidate : Option DateAPICandidate := Option.none
  error : Option String := Option.none
  replayedData : Option PyVal := Option.none
  dataCount : Nat := 0
  layer0Result : Option Layer0Result := Option.none
  layer1Result : Option LayerResult := Option.none
  layer2Result : Option LayerResult := Option.none
  layer3Result : Option LayerResult := Option.none
  globalVarConfig : Option GlobalVarAPIConfig := Option.none
  recommendations : List String := []

/-- The Layer-0 block of `extract_with_three_layers` (lines 339–388):
returns either a finished layer-0 result or control to Layer 1, together
with the stored `self._layer0_result`.  The two monadic accesses model the
*unprotected* f-string log lines 349–350, which slice
`layer0_result['api_url']` and call `.keys()` on
`layer0_result['date_params']` outside every `try`. -/
def layer0Phase (w : World) (startDate endDate : String) :
    Py (Option DateAPIExtractionResult × Option Layer0Result) :=
  if w.browserPresent ∧ w.pagePresent then do
    let l0 := tryLayer0 w
    if l0.success then do
      let _ ← pySlice l0.apiUrl 80
      let _ ← pyKeys l0.dateParams
      match buildCandidateFromGlobalVar w l0 with
      | some cand =>
        let vr := verifyCandidate w cand startDate endDate
        if vr.success then
          pure (some { success := true, layer := 0, candidates := [cand],
                       bestCandidate := some cand, dataCount := vr.dataCount,
                       replayedData := vr.parsedData,
                       globalVarConfig := some ⟨l0.varName, l0.apiUrl, l0.dateParams,
                         l0.allParams, l0.dateFormat, l0.isJsonp, l0.extraInfo⟩,
                       layer0Result := some l0,
                       recommendations := ["从全局变量直接获取 API 配置",
                         "这是最精准的方法，无需网络抓包或DOM操作"] }, some l0)
        else pure (Option.none, some l0)
      | Option.none => pure (Option.none, some l0)
    else pure (Option.none, some l0)
  else pure (Option.none, Option.none)

/-- `str + pyval` — raises `TypeError` unless the value is a string
(models the `"…" + (...).get('error', '')` concatenations of the all-fail
branch). -/
def pyAddStr (a : String) (v : PyVal) : Py String :=
  match v with
  | .str s => pure (a ++ s)
  | _ => throw (.typeError "can only concatenate str to str")

/-- `DateAPIExtractor.extract_with_three_layers`: the four-layer
orchestrator.  Log-callback effects are pure in the model (the claims
quantify over browser/LLM behaviour, not over throwing log callbacks). -/
def extractWithThreeLayers (b : Behavior) (nr : NetworkRequests)
    (startDate endDate : String) : Py DateAPIExtractionResult := do
  let ph ← layer0Phase b.toWorld startDate endDate
  match ph.1 with
  | some res => pure res
  | Option.none =>
    let l0opt := ph.2
    let l1c := tryLayer1 b.toWorld nr startDate endDate
    let l1 := l1c.1
    let cands := l1c.2
    if l1.success then
      pure { success := true, layer := 1, candidates := cands,
             bestCandidate := l1.bestCandidate, dataCount := l1.dataCount,
             replayedData := l1.replayedData, layer0Result := l0opt,
             layer1Result := some l1,
             recommendations := ["纯 API 直连成功"] }
    else
      let l2opt :=
        if b.browserPresent then
          some (tryAll b.layer2Body (fun m => failLayer ("第二层执行异常: " ++ m)))
        else Option.none
      match l2opt with
      | some l2 =>
        if l2.success then
          pure { success := true, layer := 2, candidates := cands,
                 bestCandidate := l2.bestCandidate, dataCount := l2.dataCount,
                 replayedData := l2.replayedData, layer0Result := l0opt,
                 layer1Result := some l1, layer2Result := some l2,
                 recommendations := ["DOM 自动操作成功，捕获到日期 API"] }
        else do
          let l3opt :=
            if b.browserPresent ∧ b.llmPresent then
              some (tryAll b.layer3Body (fun m => failLayer ("第三层执行异常: " ++ m)))
            else Option.none
          match l3opt with
          | some l3 =>
            if l3.success then
              pure { success := true, layer := 3, candidates := cands,
                     bestCandidate := l3.bestCandidate, dataCount := l3.dataCount,
                     replayedData := l3.replayedData, layer0Result := l0opt,
                     layer1Result := some l1, layer2Result := some l2,
                     layer3Result := some l3,
                     recommendations := ["通过 LLM 视觉分析成功定位日期控件"] }
            else do
              let e0 ← pyAddStr "全局变量扫描失败: "
                (match l0opt with
                 | some l0 => if l0.success then .str "" else l0.error
                 | Option.none => .str "")
              pure { success := false, layer := -1, candidates := cands,
                     error := some "四层策略均失败", layer0Result := l0opt,
                     layer1Result := some l1, layer2Result := some l2,
                     layer3Result := some l3,
                     recommendations := [e0,
                       "纯 API 直连失败: " ++ l1.error.getD "",
                       "DOM 自动检测失败: " ++ l2.error.getD "",
                       "LLM 视觉分析失败: " ++ l3.error.getD "",
                       "建议: 检查页面是否有反爬机制，或手动分析日期控件结构"] }
          | Option.none => do
            let e0 ← pyAddStr "全局变量扫描失败: "
              (match l0opt with
               | some l0 => if l0.success then .str "" else l0.error
               | Option.none => .str "")
            pure { success := false, layer := -1, candidates := cands,
                   error := some "四层策略均失败", layer0Result := l0opt,
                   layer1Result := some l1, layer2Result := some l2,
                   recommendations := [e0,
                     "纯 API 直连失败: " ++ l1.error.getD "",
                     "DOM 自动检测失败: " ++ l2.error.getD "",
                     "LLM 视觉分析失败: ",
                     "建议: 检查页面是否有反爬机制，或手动分析日期控件结构"] }
      | Option.none => do
        let l3opt :=
          if b.browserPresent ∧ b.llmPresent then
            some (tryAll b.layer3Body (fun m => failLayer ("第三层执行异常: " ++ m)))
          else Option.none
        match l3opt with
        | some l3 =>
          if l3.success then
            pure { success := true, layer := 3, candidates := cands,
                   bestCandidate := l3.bestCandidate, dataCount := l3.dataCount,
                   replayedData := l3.replayedData, layer0Result := l0opt,
                   layer1Result := some l1, layer3Result := some l3,
                   recommendations := ["通过 LLM 视觉分析成功定位日期控件"] }
          else do
            let e0 ← pyAddStr "全局变量扫描失败: "
              (match l0opt with
               | some l0 => if l0.success then .str "" else l0.error
               | Option.none => .str "")
            pure { success := false, layer := -1, candidates := cands,
                   error := some "四层策略均失败", layer0Result := l0opt,
                   layer1Result := some l1, layer3Result := some l3,
                   recommendations := [e0,
                     "纯 API 直连失败: " ++ l1.error.getD "",
                     "DOM 自动检测失败: ",
                     "LLM 视觉分析失败: " ++ l3.error.getD "",
                     "建议: 检查页面是否有反爬机制，或手动分析日期控件结构"] }
        | Option.none => do
          let e0 ← pyAddStr "全局变量扫描失败: "
            (match l0opt with
             | some l0 => if l0.success then .str "" else l0.error
             | Option.none => .str "")
          pure { success := false, layer := -1, candidates := cands,
                 error := some "四层策略均失败", layer0Result := l0opt,
                 layer1Result := some l1,
                 recommendations := [e0,
                   "纯 API 直连失败: " ++ l1.error.getD "",
                   "DOM 自动检测失败: ",
                   "LLM 视觉分析失败: ",
                   "建议: 检查页面是否有反爬机制，或手动分析日期控件结构"] }

/-- `v` is a Python dict. -/
def PyVal.isDict : PyVal → Bool
  | .dict _ => true
  | _ => false

/-- `v` is subscriptable by a slice (string or list). -/
def PyVal.isSliceable : PyVal → Bool
  | .str _ => true
  | .list _ => true
  | _ => false

/-- The dict carries an explicit `success: False` entry (`data.get('success')
is False`). -/
def hasExplicitSuccessFalse (kvs : List (String × PyVal)) : Bool :=
  match kvs.lookup "success" with
  | some (.bool false) => true
  | _ => false

/-- The dict carries a non-ok error-code entry: a `code` value outside the
accepted tuple `(None, 0, 200, '0', '200', 'success')` that is also truthy
(an "explicit" error code — falsy codes such as `''` are not explicit
error codes, and are indeed let through by the source). -/
def hasBadErrorCode (kvs : List (String × PyVal)) : Bool :=
  let code := (kvs.lookup "code").getD .none
  ¬ (okCodeVals.any (pyEqV code)) ∧ pyTruthy code

/-! ## Concrete inputs used by witnesses and counterexamples -/

/-- A captured GET request with a recognizable start/end date pair. -/
def reqStartEnd : NetRequest where
  url := "https://site/x?startDate=2024-01-01&endDate=2024-01-31&pageNo=1"

/-- An HTTP world whose every replay returns five items. -/
def okWorld : World where
  http := fun _ _ _ => .ok ⟨200, "\x7b\"data\": [1, 2, 3, 4, 5]\x7d"⟩

def okBehavior : Behavior where
  toWorld := okWorld

/-- Runtime-config scan value for the C1 counterexample: four api-configs,
the first three benign, the fourth with a (truthy, length ≥ 2) *string*
`date_params` — legal JSON for the `evaluateScript -> JSON` boundary. -/
def illCfg (n : Nat) : PyVal :=
  .dict [("var_name", .str "v"), ("api_url", .str "http://a/query.do"),
         ("date_params", if n = 3 then .str "abcd" else .dict [])]

def illScanWorld : World where
  browserPresent := true
  pagePresent := true
  scanEval := .ok (.dict [("found", .bool true),
    ("api_configs", .list [illCfg 0, illCfg 1, illCfg 2, illCfg 3]),
    ("scanned_vars", .list [])])

def illScanBehavior : Behavior where
  toWorld := illScanWorld

/-- A layer-0 scan result holding an API URL but no date parameters
(reachable: `api_configs[0]` is taken as `best_config` when no config has
date params). -/
def noDateCfgResult : Layer0Result where
  success := true
  varName := .str "cfg"
  apiUrl := .str "http://a/query.do"
  dateParams := .dict []
  allParams := .dict []
  extraInfo := .dict [("source", .str "generic_scan")]

/-- C5: an API-subset request whose base confidence already clamps at 1.0
(two date params, query+bulletin path, all six pagination params). -/
def bulletinReq : NetRequest where
  url := "http://h/api/querycompanybulletin?startDate=2024-01-01&endDate=2024-01-31&page=1&pageSize=10&limit=5&offset=0&type=a&category=b"

/-- C5: a candidate driven negative by the initiator adjustments
(timer-triggered, preload type, single date param, no path hints). -/
def timerReq : NetRequest where
  url := "http://x/zzz?theDate=2024-01-01"
  initiator := some { initType := "preload", frames := [("setInterval", "http://x/app.js")] }

/-- C6: the top-confidence candidate (two named date params + `list` path
token) whose replay returns one item … -/
def reqOne : NetRequest where
  url := "http://a/list?startDate=2024-01-01&endDate=2024-01-31&one=x"

/-- … and the lower-confidence candidate whose replay returns five. -/
def reqTheDate : NetRequest where
  url := "http://a/list?theDate=2024-01-01"

/-- C6 HTTP world: replays of `reqOne` (its query survives in the replay
URL) yield one item, anything else five. -/
def pickyWorld : World where
  http := fun _ url _ =>
    if strContains url "one" then .ok ⟨200, "\x7b\"data\": [1]\x7d"⟩
    else .ok ⟨200, "\x7b\"data\": [1, 2, 3, 4, 5]\x7d"⟩

/-- C9 witness: the spec's array-substitution example candidate. -/
def seDateCand : DateAPICandidate where
  url := "http://a/q"
  method := "GET"
  params := [("seDate", .list [.str "2024-01-01", .str "2024-01-01"])]
  dateParams := [("seDate", .str "YYYY-MM-DD")]

/-- The spec's reading of the Layer-1 loop: succeed on the *first* top-3
candidate (in descending score order) that verifies with a non-zero item
count and passes the sanity filter.  Stated from the spec's words, to be
compared with the source's `layer1Pick`. -/
def layer1FirstSuccessSpec (w : World) (sd ed : String) :
    List DateAPICandidate → Option (DateAPICandidate × VerifyResult)
  | [] => Option.none
  | c :: rest =>
    let r := verifyCandidate w c sd ed
    if r.success ∧ 0 < r.dataCount ∧ (looksLikeRealDateFilter c).1 then
      some (c, r)
    else layer1FirstSuccessSpec w sd ed rest

/-! # Theorems

Shared lemmas first, then one theorem (plus witness/counterexample) per
claim. -/

set_option maxRecDepth 1000000

theorem lookup_append_singleton_ne {β : Type} {xs : List (String × β)}
    {k key : String} {v : β} (h : xs.lookup k = Option.none) (hne : ¬ (k = key)) :
    (xs ++ [(key, v)]).lookup k = Option.none := by
  induction xs with
  | nil =>
    have hb : (k == key) = false := beq_eq_false_iff_ne.2 hne
    simp [List.lookup, hb]
  | cons x xs ih =>
    cases x with
    | mk k' v' =>
      cases hb : (k == k') with
      | true => simp [List.lookup, hb] at h
      | false =>
        simp only [List.cons_append, List.lookup, hb] at h ⊢
        exact ih h

theorem identifyStep_mem {acc : List (String × PyVal)} {kv e : String × PyVal}
    (he : e ∈ identifyStep acc kv) :
    e ∈ acc ∨ (e.1 = kv.1 ∧ ¬ (strLower kv.1 ∈ noiseParamNames)) := by
  simp only [identifyStep] at he
  split at he
  · exact Or.inl he
  · rename_i hnoise
    split at he
    · split at he
      · split at he
        · rcases List.mem_append.1 he with h | h
          · exact Or.inl h
          · simp at h
            exact Or.inr ⟨by rw [h], hnoise⟩
        · exact Or.inl he
      · exact Or.inl he
    · split at he
      · split at he
        · rcases List.mem_append.1 he with h | h
          · exact Or.inl h
          · simp at h
            exact Or.inr ⟨by rw [h], hnoise⟩
        · split at he
          · rcases List.mem_append.1 he with h | h
            · exact Or.inl h
            · simp at h
              exact Or.inr ⟨by rw [h], hnoise⟩
          · exact Or.inl he
      · exact Or.inl he

theorem identify_foldl_not_noise :
    ∀ (l : List (String × PyVal)) (acc : List (String × PyVal)),
      (∀ e ∈ acc, ¬ (strLower e.1 ∈ noiseParamNames)) →
      ∀ e ∈ l.foldl identifyStep acc, ¬ (strLower e.1 ∈ noiseParamNames) := by
  intro l
  induction l with
  | nil => intro acc hacc e he; exact hacc e he
  | cons kv rest ih =>
    intro acc hacc e he
    rw [List.foldl_cons] at he
    refine ih _ ?_ e he
    intro e' he'
    rcases identifyStep_mem he' with h | h
    · exact hacc e' h
    · rw [h.1]; exact h.2

/-- Keys accepted by `_identify_date_params` are never noise names. -/
theorem identify_keys_not_noise (params : List (String × PyVal)) :
    ∀ e ∈ identifyDateParams params, ¬ (strLower e.1 ∈ noiseParamNames) := by
  intro e he
  exact identify_foldl_not_noise params [] (by intro e' h; cases h) e he

theorem lookup_eq_none_of_keys_ne {β : Type} (xs : List (String × β)) (k : String)
    (h : ∀ e ∈ xs, ¬ (e.1 = k)) : xs.lookup k = Option.none := by
  induction xs with
  | nil => rfl
  | cons x xs ih =>
    have hx := h x (List.mem_cons_self x xs)
    have hb : (k == x.1) = false := beq_eq_false_iff_ne.2 (fun hh => hx hh.symm)
    cases x with
    | mk k' v' =>
      simp only [List.lookup]
      simp only at hb
      simp only [hb]
      exact ih (fun e he => h e (List.mem_cons_of_mem _ he))

/-- **C4** — For every flat parameter map, a parameter whose (lowercased)
name is one of the generic noise names (`_`, `__`, `_t`, `t`, `ts`,
`timestamp`, `_timestamp`, `_ts`) is never present in the date parameters
returned by `_identify_date_params`, regardless of its value (the source
skips such keys before any value-pattern test). -/
theorem c4_noise_names_rejected (params : List (String × PyVal)) (k : String)
    (hk : strLower k ∈ noiseParamNames) :
    (identifyDateParams params).lookup k = Option.none := by
  refine lookup_eq_none_of_keys_ne _ _ ?_
  intro e he heq
  exact identify_keys_not_noise params e he (heq ▸ hk)

/-- **C4 witness** — the cache-buster `_` with a 13-digit millisecond
epoch value is rejected. -/
theorem c4_noise_names_rejected_witness :
    strLower "_" ∈ noiseParamNames ∧
    (identifyDateParams [("_", .str "1700000000000")]).lookup "_" = Option.none :=
  ⟨by decide, c4_noise_names_rejected [("_", .str "1700000000000")] "_" (by decide)⟩

/-- **C10** — a replay response that parses to valid JSON whose top level
is not an object (a top-level array, a scalar, and also a JSON `null`,
which Python conflates with a parse failure) always fails validation with
count 0 and a reason; verification can only succeed on object-shaped
responses. -/
theorem c10_non_object_response_fails (d : PyVal) (h : d.isDict = false) :
    (validateResponse d).1 = false ∧ (validateResponse d).2.1 = 0 ∧
      (validateResponse d).2.2.isSome = true := by
  cases d <;> simp_all [validateResponse, PyVal.isDict]

/-- **C10 witness** — a non-empty top-level JSON array of records fails
with count 0. -/
theorem c10_non_object_response_fails_witness :
    (PyVal.list [.dict [("id", .int 1)], .dict [("id", .int 2)]]).isDict = false ∧
    (validateResponse (PyVal.list [.dict [("id", .int 1)], .dict [("id", .int 2)]])).1 = false ∧
    (validateResponse (PyVal.list [.dict [("id", .int 1)], .dict [("id", .int 2)]])).2.1 = 0 := by
  refine ⟨rfl, ?_⟩
  have h := c10_non_object_response_fails
    (PyVal.list [.dict [("id", .int 1)], .dict [("id", .int 2)]]) rfl
  exact ⟨h.1, h.2.1⟩

theorem pyMinInt_le_hundred (a : Int) : pyMinInt a 100 ≤ 100 := by
  unfold pyMinInt
  split <;> omega

/-- **C5 counterexample** — `analyze_requests` can hand back a candidate
with confidence 1.2 (> 1.0): the base score clamps at 1.0 inside
`_calculate_confidence`, but the API-subset bonus (+0.2) is added *after*
the clamp (hundredths scale: 120 > 100). -/
theorem c5_confidence_exceeds_one_counterexample :
    (analyzeRequests ⟨[], [bulletinReq]⟩).map (fun c => c.confidence) = [120] ∧
    (100 : Int) < 120 :=
  ⟨rfl, by omega⟩

/-- **C5 (amended)** — `_calculate_confidence` itself never returns more
than 1.0 (hundredths: 100) for any URL, method and parameter map — only
this upper bound is enforced and no lower bound is applied: the initiator
penalties can drive a candidate's final confidence negative, as the
concrete timer-triggered candidate (confidence −0.1) shows.  The 1.0 cap
does *not* survive `analyze_requests`' post-clamp bonuses (see the
counterexample). -/
theorem c5_scorer_clamp_amended :
    (∀ (url method : String) (params dateParams : List (String × PyVal)),
      calculateConfidence url method params dateParams ≤ 100) ∧
    (analyzeRequests ⟨[timerReq], []⟩).map (fun c => c.confidence) = [-10] :=
  ⟨fun _ _ _ _ => pyMinInt_le_hundred _, rfl⟩

/-- **C8** — `_validate_response` succeeds only if the counted item list
is non-empty and the parsed object carries neither an explicit
`success: False` entry nor a truthy non-ok `code` entry; in every other
case it reports failure with a reason and count 0. -/
theorem c8_validate_success_conditions (d : PyVal) :
    ((validateResponse d).1 = true →
      ∃ kvs, d = .dict kvs ∧ 0 < (validateResponse d).2.1 ∧
        hasExplicitSuccessFalse kvs = false ∧ hasBadErrorCode kvs = false) ∧
    ((validateResponse d).1 = false →
      (validateResponse d).2.1 = 0 ∧ (validateResponse d).2.2.isSome = true) := by
  cases d with
  | dict kvs =>
    constructor
    · intro h
      refine ⟨kvs, rfl, ?_⟩
      dsimp only [validateResponse] at h ⊢
      split at h
      · simp at h
      · rename_i hno
        split at h
        · simp at h
        · rename_i hcode
          split at h
          · simp at h
          · rename_i hn
            rw [if_neg hcode, if_neg hn]
            refine ⟨Nat.pos_of_ne_zero hn, ?_, ?_⟩
            · unfold hasExplicitSuccessFalse
              split
              · rename_i heq
                exact absurd heq hno
              · rfl
            · unfold hasBadErrorCode
              exact decide_eq_false hcode
    · intro h
      dsimp only [validateResponse] at h ⊢
      split at h
      · exact ⟨rfl, rfl⟩
      · split at h
        · rename_i hc
          rw [if_pos hc]
          exact ⟨rfl, rfl⟩
        · rename_i hc
          split at h
          · rename_i hn0
            rw [if_neg hc, if_pos hn0]
            exact ⟨rfl, rfl⟩
          · simp at h
  | none => simp [validateResponse]
  | bool b => simp [validateResponse]
  | int n => simp [validateResponse]
  | str s => simp [validateResponse]
  | list l => simp [validateResponse]

/-- **C8 witness** — a plain `{"data": [..]}` object with two items
validates, and the theorem instantiates at it. -/
theorem c8_validate_success_conditions_witness :
    (validateResponse (.dict [("data", .list [.int 1, .int 2])])).1 = true ∧
    0 < (validateResponse (.dict [("data", .list [.int 1, .int 2])])).2.1 := by
  have h := (c8_validate_success_conditions (.dict [("data", .list [.int 1, .int 2])])).1 rfl
  obtain ⟨kvs, _, h2, _⟩ := h
  exact ⟨rfl, h2⟩

theorem dictSet_lookup_self (xs : List (String × PyVal)) (k : String) (v : PyVal) :
    (dictSet xs k v).lookup k = some v := by
  induction xs with
  | nil => simp [dictSet, List.lookup]
  | cons x xs ih =>
    cases x with
    | mk k' v' =>
      unfold dictSet
      by_cases hk : k' = k
      · subst hk
        simp [List.lookup]
      · have hb : (k == k') = false := beq_eq_false_iff_ne.2 (fun hh => hk hh.symm)
        simp only [if_neg hk, List.lookup, hb]
        exact ih

theorem dictSet_lookup_ne (xs : List (String × PyVal)) (k k' : String) (v : PyVal)
    (h : ¬ (k' = k)) : (dictSet xs k v).lookup k' = xs.lookup k' := by
  induction xs with
  | nil =>
    have hb : (k' == k) = false := beq_eq_false_iff_ne.2 h
    simp [dictSet, List.lookup, hb]
  | cons x xs ih =>
    cases x with
    | mk kx vx =>
      unfold dictSet
      by_cases hkx : kx = k
      · subst hkx
        have hb : (k' == kx) = false := beq_eq_false_iff_ne.2 h
        simp [List.lookup, hb]
      · simp only [if_neg hkx, List.lookup]
        cases hb : (k' == kx) with
        | true => rfl
        | false => exact ih

/-- `replaceDateParam` only touches the key of the entry it processes. -/
theorem replaceDateParam_lookup_ne (tz : Int) (cand : DateAPICandidate)
    (s e : String) (np : List (String × PyVal)) (kv : String × PyVal) (p : String)
    (h : ¬ (p = kv.1)) :
    (replaceDateParam tz cand s e np kv).lookup p = np.lookup p := by
  dsimp only [replaceDateParam]
  split
  · exact dictSet_lookup_ne np kv.1 p _ h
  · exact dictSet_lookup_ne np kv.1 p _ h

theorem replay_fold_preserve (tz : Int) (cand : DateAPICandidate) (s e : String) :
    ∀ (dps : List (String × PyVal)) (np : List (String × PyVal)) (p : String),
      ¬ (p ∈ dps.map Prod.fst) →
      (dps.foldl (replaceDateParam tz cand s e) np).lookup p = np.lookup p := by
  intro dps
  induction dps with
  | nil => intro np p _; rfl
  | cons kv rest ih =>
    intro np p hp
    rw [List.foldl_cons]
    have h1 : ¬ (p = kv.1) := fun hh => hp (by simp [hh])
    rw [ih _ p (fun hh => hp (by simp [hh]))]
    exact replaceDateParam_lookup_ne tz cand s e np kv p h1

theorem replay_fold_sets (tz : Int) (cand : DateAPICandidate) (s e : String) :
    ∀ (dps : List (String × PyVal)) (np : List (String × PyVal)) (p : String)
      (fmt : PyVal),
      (dps.map Prod.fst).Nodup → dps.lookup p = some fmt →
      replArrayCond cand p = true →
      (dps.foldl (replaceDateParam tz cand s e) np).lookup p =
        some (.list [.str (formatDate tz s fmt), .str (formatDate tz e fmt)]) := by
  intro dps
  induction dps with
  | nil => intro np p fmt _ hl _; simp [List.lookup] at hl
  | cons kv rest ih =>
    intro np p fmt hnd hl hc
    cases kv with
    | mk k f =>
      rw [List.map_cons] at hnd
      have hnd2 := List.nodup_cons.1 hnd
      rw [List.foldl_cons]
      by_cases hp : p = k
      · have hb : (p == k) = true := beq_iff_eq.2 hp
        simp only [List.lookup, hb] at hl
        have hfmt : fmt = f := (Option.some_inj.1 hl).symm
        have hnotin : ¬ (p ∈ rest.map Prod.fst) := by
          rw [hp]; exact hnd2.1
        rw [replay_fold_preserve tz cand s e rest _ p hnotin]
        have hcond : replArrayCond cand k = true := by rw [← hp]; exact hc
        dsimp only [replaceDateParam]
        rw [if_pos hcond, hfmt, hp]
        exact dictSet_lookup_self np k _
      · have hb : (p == k) = false := beq_eq_false_iff_ne.2 hp
        simp only [List.lookup, hb] at hl
        exact ih _ p fmt hnd2.2 hl hc

theorem normalizeCb1_lookup_ne (np : List (String × PyVal)) (p : String)
    (hj : ¬ (p = "jsonCallBack")) : (normalizeCb1 np).lookup p = np.lookup p := by
  unfold normalizeCb1
  split
  · rw [dictSet_lookup_ne _ _ _ _ hj]
  · rfl

theorem normalizeCallbacks_lookup_ne (np : List (String × PyVal)) (p : String)
    (hj : ¬ (p = "jsonCallBack")) (hcb : ¬ (p = "callback")) :
    (normalizeCallbacks np).lookup p = np.lookup p := by
  unfold normalizeCallbacks
  split
  · rw [dictSet_lookup_ne _ _ _ _ hcb]
    exact normalizeCb1_lookup_ne np p hj
  · exact normalizeCb1_lookup_ne np p hj

theorem addSseCallback_lookup_ne (url : String) (np : List (String × PyVal))
    (p : String) (hj : ¬ (p = "jsonCallBack")) :
    (addSseCallback url np).lookup p = np.lookup p := by
  unfold addSseCallback
  split
  · rw [dictSet_lookup_ne _ _ _ _ hj]
  · rfl

theorem ensurePageNo_lookup_some (np : List (String × PyVal)) (p : String)
    (v : PyVal) (h : np.lookup p = some v) :
    (ensurePageNo np).lookup p = some v := by
  unfold ensurePageNo
  by_cases hpn : p = "pageHelp.pageNo"
  · rw [if_neg]
    · exact h
    · intro hcond
      apply hcond.1
      unfold dictHas
      rw [← hpn, h]
      rfl
  · split
    · rw [dictSet_lookup_ne _ _ _ _ hpn]
      exact h
    · exact h

theorem ensurePagination_lookup_some (np : List (String × PyVal)) (p : String)
    (v : PyVal) (h : np.lookup p = some v) :
    (ensurePagination np).lookup p = some v := by
  have h4 := ensurePageNo_lookup_some np p v h
  unfold ensurePagination
  by_cases hps : p = "pageHelp.pageSize"
  · rw [if_neg]
    · exact h4
    · intro hcond
      apply hcond.1
      unfold dictHas
      rw [← hps, h4]
      rfl
  · split
    · rw [dictSet_lookup_ne _ _ _ _ hps]
      exact h4
    · exact h4

/-- **C9** — in `build_replay_url`, every recognized date parameter whose
original value is an array (or whose name is range-ish: `seDate`,
`dateRange`, `date_range`) is replaced by the two-element
`[format(start), format(end)]` array in the candidate's recorded format;
stated for every candidate with distinct date-parameter keys whose
parameter is not one of the JSONP callback names the later normalization
overwrites. -/
theorem c9_array_date_substitution (tz : Int) (cand : DateAPICandidate)
    (startDate endDate p : String) (fmt : PyVal)
    (hnd : (cand.dateParams.map Prod.fst).Nodup)
    (hf : cand.dateParams.lookup p = some fmt)
    (hc : replArrayCond cand p = true)
    (hj : ¬ (p = "jsonCallBack")) (hcb : ¬ (p = "callback")) :
    (buildReplayParams tz cand startDate endDate).lookup p =
      some (.list [.str (formatDate tz startDate fmt),
                   .str (formatDate tz endDate fmt)]) := by
  unfold buildReplayParams
  have h0 := replay_fold_sets tz cand startDate endDate cand.dateParams cand.params
    p fmt hnd hf hc
  apply ensurePagination_lookup_some
  rw [addSseCallback_lookup_ne _ _ _ hj, normalizeCallbacks_lookup_ne _ _ hj hcb]
  exact h0

theorem py_pure_eq {α : Type} (a : α) : (pure a : Py α) = Except.ok a := rfl

theorem py_throw_eq {α : Type} (e : PyErr) :
    (throw e : Py α) = Except.error e := rfl

theorem py_bind_ok {α β : Type} (a : α) (f : α → Py β) :
    ((Except.ok a : Py α) >>= f) = f a := rfl

theorem py_bind_error {α β : Type} (e : PyErr) (f : α → Py β) :
    ((Except.error e : Py α) >>= f) = Except.error e := rfl

theorem tryAll_ok {α : Type} (a : α) (h : String → α) :
    tryAll (Except.ok a) h = a := rfl

theorem tryAll_error {α : Type} (e : PyErr) (h : String → α) :
    tryAll (Except.error e) h = h e.toMsg := rfl

/-- **C3 counterexample** — `_build_candidate_from_global_var` *does*
yield a candidate for a runtime config with no recognized date parameter:
the Layer-0 best-config fallback (`api_configs[0]`) can hand it a config
with an API URL but empty `date_params`, and the built candidate then has
an empty `date_params` map (the `flag_obj` fallback does not apply to a
`generic_scan` config). -/
theorem c3_empty_dateparams_counterexample :
    (buildCandidateFromGlobalVar okWorld noDateCfgResult).map
      (fun c => c.dateParams) = some [] := rfl

/-- **C3 (amended)** — every candidate built by `_analyze_single_request`
has a non-empty `date_params` map (requests without a recognized date
parameter yield no candidate); `_build_candidate_from_global_var`
guarantees this only when the runtime config itself carries at least one
date parameter — a config with none still yields a candidate, with empty
`date_params` (see the counterexample). -/
theorem c3_nonempty_dateparams_amended :
    (∀ (req : NetRequest) (c : DateAPICandidate),
        analyzeSingleRequest req = some c → c.dateParams ≠ []) ∧
    (∀ (w : World) (r : Layer0Result) (c : DateAPICandidate)
        (l : List (String × PyVal)),
        buildCandidateFromGlobalVar w r = some c → r.dateParams = .dict l →
        l ≠ [] → c.dateParams ≠ []) := by
  constructor
  · intro req c h hnil
    simp only [analyzeSingleRequest] at h
    split at h
    · exact absurd h (by simp)
    · split at h
      · exact absurd h (by simp)
      · rename_i hne
        rw [← Option.some_inj.1 h] at hnil
        simp only at hnil
        exact hne (by rw [hnil]; rfl)
  · intro w r c l h hd hl hnil
    unfold buildCandidateFromGlobalVar at h
    by_cases ht : pyTruthy r.apiUrl
    case neg =>
      rw [if_pos (by simp [ht]), py_pure_eq, tryAll_ok] at h
      exact absurd h (by simp)
    case pos =>
      rw [if_neg (by simp [ht]), hd] at h
      cases hau : r.apiUrl <;> rw [hau] at h <;>
        simp only [pyExpectStr, py_pure_eq, py_throw_eq, py_bind_ok, py_bind_error,
          tryAll_ok, tryAll_error] at h
      case none => exact absurd h (by simp)
      case bool => exact absurd h (by simp)
      case int => exact absurd h (by simp)
      case list => exact absurd h (by simp)
      case dict => exact absurd h (by simp)
      case str su =>
        cases hap : r.allParams <;> rw [hap] at h <;>
          simp only [pyItems, py_pure_eq, py_throw_eq, py_bind_ok, py_bind_error,
            tryAll_ok, tryAll_error] at h
        case none => exact absurd h (by simp)
        case bool => exact absurd h (by simp)
        case int => exact absurd h (by simp)
        case str => exact absurd h (by simp)
        case list => exact absurd h (by simp)
        case dict m =>
          simp only [pyKeys, py_pure_eq, py_bind_ok] at h
          cases hvn : r.varName <;> rw [hvn] at h <;>
            simp only [pyExpectStr, py_pure_eq, py_throw_eq, py_bind_ok, py_bind_error,
              tryAll_ok, tryAll_error] at h
          case none => exact absurd h (by simp)
          case bool => exact absurd h (by simp)
          case int => exact absurd h (by simp)
          case list => exact absurd h (by simp)
          case dict => exact absurd h (by simp)
          case str vns =>
            rw [if_neg (by simp [hl])] at h
            simp only [tryAll_ok] at h
            rw [← Option.some_inj.1 h] at hnil
            simp only at hnil
            cases l with
            | nil => exact hl rfl
            | cons x xs => exact absurd hnil (by simp)

/-- **C3 witness** — the amended theorem instantiated: the start/end
request yields a candidate with date params, and a layer-0 config with
one date parameter yields a candidate with date params. -/
theorem c3_nonempty_dateparams_amended_witness :
    (analyzeRequests ⟨[reqStartEnd], []⟩).map (fun c => c.dateParams.length) = [2] ∧
    ∀ c, analyzeSingleRequest reqStartEnd = some c → c.dateParams ≠ [] :=
  ⟨rfl, fun c h => c3_nonempty_dateparams_amended.1 reqStartEnd c h⟩

/-- **C9 witness** — the spec's concrete example: `seDate` recorded as
`YYYY-MM-DD` with original value `["2024-01-01","2024-01-01"]` replays as
`["2024-02-01","2024-02-05"]` for the range 2024-02-01 … 2024-02-05. -/
theorem c9_array_date_substitution_witness :
    (buildReplayParams 0 seDateCand "2024-02-01" "2024-02-05").lookup "seDate" =
      some (.list [.str "2024-02-01", .str "2024-02-05"]) :=
  c9_array_date_substitution 0 seDateCand "2024-02-01" "2024-02-05" "seDate"
    (.str "YYYY-MM-DD") (by decide) rfl rfl (by decide) (by decide)

theorem le_pyMinInt {n a b : Int} (ha : n ≤ a) (hb : n ≤ b) :
    n ≤ pyMinInt a b := by
  unfold pyMinInt; split <;> omega

theorem pyMinInt_le_left {a b : Int} : pyMinInt a b ≤ a := by
  unfold pyMinInt; split <;> omega

/-- **C7** — scoring monotonicity: a POST candidate with exactly two date
parameters whose names are not all noise and whose URL path contains a
bulletin-like token scores strictly higher than any GET candidate with
exactly one date parameter whose URL path matches no API-path pattern and
contains no bulletin-like token (regardless of either side's other
parameters). -/
theorem c7_scoring_monotonicity
    (urlA : String) (paramsA dpA : List (String × PyVal))
    (urlB : String) (paramsB dpB : List (String × PyVal))
    (h2 : dpA.length = 2)
    (hnn : (dpA.map (fun kv => strLower kv.1)).all
      (fun k => k ∈ noiseParamNames) = false)
    (hbul : bulletinTokens.any
      (fun t => strContains (strLower (urlparse urlA).path) t) = true)
    (h1 : dpB.length = 1)
    (hnoapi : apiPathMatch (strLower (urlparse urlB).path) = false)
    (hnob : bulletinTokens.any
      (fun t => strContains (strLower (urlparse urlB).path) t) = false) :
    calculateConfidence urlB "GET" paramsB dpB <
      calculateConfidence urlA "POST" paramsA dpA := by
  have hA : (70 : Int) ≤ calculateConfidence urlA "POST" paramsA dpA := by
    have hnA : ¬ (¬ ((dpA.map (fun kv => strLower kv.1)).isEmpty = true) ∧
        ((dpA.map (fun kv => strLower kv.1)).all
          (fun k => decide (k ∈ noiseParamNames)) = true)) :=
      fun hc => by simp [hnn] at hc
    simp only [calculateConfidence]
    rw [if_pos h2, if_neg hnA, if_pos hbul,
      if_pos trivial]
    refine le_pyMinInt ?_ (by omega)
    have hpz : (0 : Int) ≤
        ((["page", "pageSize", "limit", "offset", "type", "category"].filter
          (fun p => strLower p ∈ paramsA.map (fun kv => strLower kv.1))).length : Int) :=
      Int.natCast_nonneg _
    split_ifs <;> linarith
  have hB : calculateConfidence urlB "GET" paramsB dpB ≤ 50 := by
    have hp : (["page", "pageSize", "limit", "offset", "type", "category"].filter
        (fun p => strLower p ∈ paramsB.map (fun kv => strLower kv.1))).length ≤ 6 :=
      List.length_filter_le _ _
    have hB2 : ¬ (dpB.length = 2) := by omega
    have hBapi : ¬ (apiPathMatch (strLower (urlparse urlB).path) = true) := by
      simp [hnoapi]
    have hBbul : ¬ ((bulletinTokens.any
        (fun t => strContains (strLower (urlparse urlB).path) t)) = true) := by
      simp [hnob]
    have hBm : ¬ (("GET" : String) = "POST") := by decide
    simp only [calculateConfidence]
    rw [if_neg hB2, if_pos h1, if_neg hBapi, if_neg hBbul, if_neg hBm]
    refine le_trans pyMinInt_le_left ?_
    have hpz : ((["page", "pageSize", "limit", "offset", "type", "category"].filter
        (fun p => strLower p ∈ paramsB.map (fun kv => strLower kv.1))).length : Int) ≤ 6 := by
      exact_mod_cast hp
    split_ifs <;> linarith
  exact lt_of_le_of_lt hB (lt_of_lt_of_le (show (50 : Int) < 70 by omega) hA)

/-- **C7 witness** — a concrete pair: a POST bulletin request with
`startDate`/`endDate` against a GET request with a lone `date` parameter
on a hint-free path. -/
theorem c7_scoring_monotonicity_witness :
    calculateConfidence "http://b/x" "GET" []
        [("date", PyVal.str "")] <
      calculateConfidence "http://a/bulletin" "POST" []
        [("startDate", PyVal.str ""), ("endDate", PyVal.str "")] :=
  c7_scoring_monotonicity "http://a/bulletin" []
    [("startDate", PyVal.str ""), ("endDate", PyVal.str "")]
    "http://b/x" [] [("date", PyVal.str "")]
    (by decide) (by decide) (by decide) (by decide) (by decide) (by decide)

/-- **C2** — Layer-1 short-circuit: whenever Layer 0 hands control to
Layer 1 and `_try_layer1_api_direct` reports a verified success, the
orchestrator returns a success with `layer = 1` whose `layer2_result` and
`layer3_result` fields are `None`, and the outcome is invariant under
arbitrary replacement of the Layer-2 and Layer-3 bodies — those layers
are never executed. -/
theorem c2_layer1_short_circuit (b : Behavior) (nr : NetworkRequests)
    (sd ed : String) (l0opt : Option Layer0Result)
    (h0 : layer0Phase b.toWorld sd ed = .ok (Option.none, l0opt))
    (h1 : (tryLayer1 b.toWorld nr sd ed).1.success = true) :
    ∃ r, extractWithThreeLayers b nr sd ed = .ok r ∧
      r.success = true ∧ r.layer = 1 ∧
      r.layer2Result = Option.none ∧ r.layer3Result = Option.none ∧
      ∀ x y : Py LayerResult,
        extractWithThreeLayers { b with layer2Body := x, layer3Body := y } nr sd ed =
          extractWithThreeLayers b nr sd ed := by
  have hmain : extractWithThreeLayers b nr sd ed = .ok
      { success := true, layer := 1, candidates := (tryLayer1 b.toWorld nr sd ed).2,
        bestCandidate := (tryLayer1 b.toWorld nr sd ed).1.bestCandidate,
        dataCount := (tryLayer1 b.toWorld nr sd ed).1.dataCount,
        replayedData := (tryLayer1 b.toWorld nr sd ed).1.replayedData,
        layer0Result := l0opt,
        layer1Result := some (tryLayer1 b.toWorld nr sd ed).1,
        recommendations := ["纯 API 直连成功"] } := by
    simp only [extractWithThreeLayers, h0, py_bind_ok]
    rw [if_pos h1]
    rfl
  refine ⟨_, hmain, rfl, rfl, rfl, rfl, fun x y => ?_⟩
  rw [hmain]
  show extractWithThreeLayers
    { toWorld := b.toWorld, layer2Body := x, layer3Body := y } nr sd ed = _
  simp only [extractWithThreeLayers, h0, py_bind_ok]
  rw [if_pos h1]
  rfl

/-- **C2 witness** — the short-circuit instantiated on a concrete world:
a browserless behaviour whose lone captured request verifies on replay. -/
theorem c2_layer1_short_circuit_witness :
    ∃ r, extractWithThreeLayers okBehavior ⟨[reqStartEnd], []⟩
        "2024-01-01" "2024-01-31" = .ok r ∧
      r.success = true ∧ r.layer = 1 ∧
      r.layer2Result = Option.none ∧ r.layer3Result = Option.none ∧
      ∀ x y : Py LayerResult,
        extractWithThreeLayers { okBehavior with layer2Body := x, layer3Body := y }
            ⟨[reqStartEnd], []⟩ "2024-01-01" "2024-01-31" =
          extractWithThreeLayers okBehavior ⟨[reqStartEnd], []⟩
            "2024-01-01" "2024-01-31" :=
  c2_layer1_short_circuit okBehavior ⟨[reqStartEnd], []⟩ "2024-01-01" "2024-01-31"
    Option.none rfl rfl

theorem insertDesc_mem {y c : DateAPICandidate} :
    ∀ {l : List DateAPICandidate}, y ∈ insertDesc c l → y = c ∨ y ∈ l := by
  intro l
  induction l with
  | nil =>
    intro h
    simp only [insertDesc, List.mem_singleton] at h
    exact Or.inl h
  | cons x xs ih =>
    intro h
    simp only [insertDesc] at h
    by_cases hlt : x.confidence < c.confidence
    · rw [if_pos hlt] at h
      rcases List.mem_cons.1 h with rfl | h'
      · exact Or.inl rfl
      · exact Or.inr h'
    · rw [if_neg hlt] at h
      rcases List.mem_cons.1 h with rfl | h'
      · exact Or.inr (List.mem_cons_self _ _)
      · rcases ih h' with rfl | h''
        · exact Or.inl rfl
        · exact Or.inr (List.mem_cons_of_mem _ h'')

theorem insertDesc_sorted {c : DateAPICandidate} :
    ∀ {l : List DateAPICandidate},
      l.Pairwise (fun a b => b.confidence ≤ a.confidence) →
      (insertDesc c l).Pairwise (fun a b => b.confidence ≤ a.confidence) := by
  intro l
  induction l with
  | nil =>
    intro _
    simp [insertDesc]
  | cons x xs ih =>
    intro h
    rw [List.pairwise_cons] at h
    obtain ⟨hx, hxs⟩ := h
    simp only [insertDesc]
    by_cases hlt : x.confidence < c.confidence
    · rw [if_pos hlt, List.pairwise_cons]
      refine ⟨?_, List.pairwise_cons.2 ⟨hx, hxs⟩⟩
      intro y hy
      rcases List.mem_cons.1 hy with rfl | hy'
      · exact le_of_lt hlt
      · exact le_trans (hx y hy') (le_of_lt hlt)
    · rw [if_neg hlt, List.pairwise_cons]
      refine ⟨?_, ih hxs⟩
      intro y hy
      rcases insertDesc_mem hy with rfl | hy'
      · exact le_of_not_lt hlt
      · exact hx y hy'

theorem sortByConfDesc_sorted (l : List DateAPICandidate) :
    (sortByConfDesc l).Pairwise (fun a b => b.confidence ≤ a.confidence) := by
  have h : ∀ acc : List DateAPICandidate,
      acc.Pairwise (fun a b => b.confidence ≤ a.confidence) →
      (l.foldl (fun acc c => insertDesc c acc) acc).Pairwise
        (fun a b => b.confidence ≤ a.confidence) := by
    induction l with
    | nil => intro acc hacc; simpa using hacc
    | cons x xs ih => intro acc hacc; exact ih _ (insertDesc_sorted hacc)
  simpa only [sortByConfDesc] using h [] List.Pairwise.nil

theorem layer1Pick_eq_none (w : World) (sd ed : String)
    (l : List DateAPICandidate) :
    ∀ (best : Option (DateAPICandidate × VerifyResult)) (bestCount : Nat),
      layer1Pick w sd ed l best bestCount = Option.none →
      best = Option.none ∧
      ∀ d ∈ l, (verifyCandidate w d sd ed).success = true →
        (looksLikeRealDateFilter d).1 = true →
        (verifyCandidate w d sd ed).dataCount ≤ bestCount := by
  induction l with
  | nil =>
    intro best bestCount h
    simp only [layer1Pick] at h
    exact ⟨h, by simp⟩
  | cons c rest ih =>
    intro best bestCount h
    simp only [layer1Pick] at h
    by_cases hs : (verifyCandidate w c sd ed).success = true ∧
        (verifyCandidate w c sd ed).dataCount > bestCount
    · rw [if_pos hs] at h
      by_cases hf : (looksLikeRealDateFilter c).1 = true
      · rw [if_pos hf] at h
        exact absurd (ih _ _ h).1 (by simp)
      · rw [if_neg hf] at h
        obtain ⟨h1, h2⟩ := ih _ _ h
        refine ⟨h1, ?_⟩
        intro d hd hds hdf
        rcases List.mem_cons.1 hd with rfl | hd'
        · exact absurd hdf hf
        · exact h2 d hd' hds hdf
    · rw [if_neg hs] at h
      obtain ⟨h1, h2⟩ := ih _ _ h
      refine ⟨h1, ?_⟩
      intro d hd hds hdf
      rcases List.mem_cons.1 hd with rfl | hd'
      · by_contra hgt
        exact hs ⟨hds, by omega⟩
      · exact h2 d hd' hds hdf

theorem layer1Pick_some (w : World) (sd ed : String)
    (l : List DateAPICandidate) :
    ∀ (best : Option (DateAPICandidate × VerifyResult)) (bestCount : Nat),
      (∀ cr : DateAPICandidate × VerifyResult, best = some cr →
        cr.2 = verifyCandidate w cr.1 sd ed ∧
        (verifyCandidate w cr.1 sd ed).success = true ∧
        (looksLikeRealDateFilter cr.1).1 = true ∧
        (verifyCandidate w cr.1 sd ed).dataCount = bestCount ∧ 0 < bestCount) →
      ∀ cr : DateAPICandidate × VerifyResult,
        layer1Pick w sd ed l best bestCount = some cr →
        (cr.1 ∈ l ∨ best = some cr) ∧
        cr.2 = verifyCandidate w cr.1 sd ed ∧
        (verifyCandidate w cr.1 sd ed).success = true ∧
        (looksLikeRealDateFilter cr.1).1 = true ∧
        0 < (verifyCandidate w cr.1 sd ed).dataCount ∧
        bestCount ≤ (verifyCandidate w cr.1 sd ed).dataCount ∧
        ∀ d ∈ l, (verifyCandidate w d sd ed).success = true →
          (looksLikeRealDateFilter d).1 = true →
          (verifyCandidate w d sd ed).dataCount ≤
            (verifyCandidate w cr.1 sd ed).dataCount := by
  induction l with
  | nil =>
    intro best bestCount hbc cr h
    simp only [layer1Pick] at h
    obtain ⟨hv, hsucc, hfil, hcnt, hpos⟩ := hbc cr h
    exact ⟨Or.inr h, hv, hsucc, hfil, by omega, by omega, by simp⟩
  | cons c rest ih =>
    intro best bestCount hbc cr h
    simp only [layer1Pick] at h
    by_cases hs : (verifyCandidate w c sd ed).success = true ∧
        (verifyCandidate w c sd ed).dataCount > bestCount
    · rw [if_pos hs] at h
      by_cases hf : (looksLikeRealDateFilter c).1 = true
      · rw [if_pos hf] at h
        have hbc' : ∀ cr' : DateAPICandidate × VerifyResult,
            some (c, verifyCandidate w c sd ed) = some cr' →
            cr'.2 = verifyCandidate w cr'.1 sd ed ∧
            (verifyCandidate w cr'.1 sd ed).success = true ∧
            (looksLikeRealDateFilter cr'.1).1 = true ∧
            (verifyCandidate w cr'.1 sd ed).dataCount =
              (verifyCandidate w c sd ed).dataCount ∧
            0 < (verifyCandidate w c sd ed).dataCount := by
          intro cr' hcr'
          rw [← Option.some_inj.1 hcr']
          exact ⟨rfl, hs.1, hf, rfl, by omega⟩
        obtain ⟨hm, hv, hsucc, hfil, hpos, hle, hmax⟩ := ih _ _ hbc' cr h
        refine ⟨?_, hv, hsucc, hfil, hpos, by omega, ?_⟩
        · rcases hm with hm' | hm'
          · exact Or.inl (List.mem_cons_of_mem _ hm')
          · rw [← Option.some_inj.1 hm']
            exact Or.inl (List.mem_cons_self _ _)
        · intro d hd hds hdf
          rcases List.mem_cons.1 hd with rfl | hd'
          · omega
          · exact hmax d hd' hds hdf
      · rw [if_neg hf] at h
        obtain ⟨hm, hv, hsucc, hfil, hpos, hle, hmax⟩ := ih _ _ hbc cr h
        refine ⟨?_, hv, hsucc, hfil, hpos, hle, ?_⟩
        · rcases hm with hm' | hm'
          · exact Or.inl (List.mem_cons_of_mem _ hm')
          · exact Or.inr hm'
        · intro d hd hds hdf
          rcases List.mem_cons.1 hd with rfl | hd'
          · exact absurd hdf hf
          · exact hmax d hd' hds hdf
    · rw [if_neg hs] at h
      obtain ⟨hm, hv, hsucc, hfil, hpos, hle, hmax⟩ := ih _ _ hbc cr h
      refine ⟨?_, hv, hsucc, hfil, hpos, hle, ?_⟩
      · rcases hm with hm' | hm'
        · exact Or.inl (List.mem_cons_of_mem _ hm')
        · exact Or.inr hm'
      · intro d hd hds hdf
        rcases List.mem_cons.1 hd with rfl | hd'
        · have : ¬ (verifyCandidate w d sd ed).dataCount > bestCount :=
            fun hgt => hs ⟨hds, hgt⟩
          omega
        · exact hmax d hd' hds hdf

/-- **C6 counterexample** — Layer 1 does *not* succeed on the first
top-3 candidate (in descending score order) that verifies non-zero and
passes the sanity filter: with two verifying, filter-passing candidates,
the spec's first-success rule picks the higher-scored `reqOne` candidate
(1 item), while the source keeps verifying and returns the later
`reqTheDate` candidate because its replay yields more items (5 > 1). -/
theorem c6_first_verifier_counterexample :
    ((layer1FirstSuccessSpec pickyWorld "2024-01-01" "2024-01-31"
        ((analyzeRequests ⟨[reqOne, reqTheDate], []⟩).take 3)).map
          (fun cr => cr.1.url) = some reqOne.url) ∧
    ((tryLayer1 pickyWorld ⟨[reqOne, reqTheDate], []⟩
        "2024-01-01" "2024-01-31").1.bestCandidate.map
          (fun c => c.url) = some reqTheDate.url) ∧
    reqOne.url ≠ reqTheDate.url :=
  ⟨rfl, rfl, by decide⟩

/-- **C6 (amended)** — Layer 1 verifies at most the three
highest-confidence candidates (`analyze_requests` returns them in
descending confidence order); it succeeds exactly when some top-3
candidate verifies with a non-zero item count and passes the sanity
filter; and the returned `best_candidate` is such a top-3 candidate whose
item count is *maximal* among the verifying, filter-passing top-3
candidates — not necessarily the first one in order (see the
counterexample). -/
theorem c6_layer1_top3_amended (w : World) (nr : NetworkRequests)
    (sd ed : String) :
    (analyzeRequests nr).Pairwise (fun a b => b.confidence ≤ a.confidence) ∧
    ((tryLayer1 w nr sd ed).1.success = true ↔
      ∃ c, c ∈ (analyzeRequests nr).take 3 ∧
        (verifyCandidate w c sd ed).success = true ∧
        (looksLikeRealDateFilter c).1 = true ∧
        0 < (verifyCandidate w c sd ed).dataCount) ∧
    (∀ c, (tryLayer1 w nr sd ed).1.bestCandidate = some c →
      c ∈ (analyzeRequests nr).take 3 ∧
      (verifyCandidate w c sd ed).success = true ∧
      (looksLikeRealDateFilter c).1 = true ∧
      0 < (verifyCandidate w c sd ed).dataCount ∧
      ∀ d ∈ (analyzeRequests nr).take 3,
        (verifyCandidate w d sd ed).success = true →
        (looksLikeRealDateFilter d).1 = true →
        (verifyCandidate w d sd ed).dataCount ≤
          (verifyCandidate w c sd ed).dataCount) := by
  refine ⟨sortByConfDesc_sorted _, ?_⟩
  by_cases hemp : (analyzeRequests nr).isEmpty = true
  · constructor
    · constructor
      · intro hs
        simp only [tryLayer1] at hs
        rw [if_pos hemp] at hs
        exact absurd hs (by simp [failLayer])
      · rintro ⟨c, hc, -⟩
        rw [List.isEmpty_iff] at hemp
        rw [hemp] at hc
        simp at hc
    · intro c hc
      simp only [tryLayer1] at hc
      rw [if_pos hemp] at hc
      exact absurd hc (by simp [failLayer])
  · cases hpick : layer1Pick w sd ed ((analyzeRequests nr).take 3)
        Option.none 0 with
    | none =>
      have hq := (layer1Pick_eq_none w sd ed _ _ _ hpick).2
      constructor
      · constructor
        · intro hs
          simp only [tryLayer1] at hs
          rw [if_neg hemp, hpick] at hs
          exact absurd hs (by simp [failLayer])
        · rintro ⟨c, hc, hcs, hcf, hcpos⟩
          have := hq c hc hcs hcf
          omega
      · intro c hc
        simp only [tryLayer1] at hc
        rw [if_neg hemp, hpick] at hc
        exact absurd hc (by simp [failLayer])
    | some cr =>
      obtain ⟨hm, hv, hsucc, hfil, hpos, -, hmax⟩ :=
        layer1Pick_some w sd ed _ _ _ (fun cr' h => Option.noConfusion h) cr hpick
      have hmem : cr.1 ∈ (analyzeRequests nr).take 3 := by
        rcases hm with hm' | hm'
        · exact hm'
        · exact absurd hm' (by simp)
      constructor
      · constructor
        · intro _
          exact ⟨cr.1, hmem, hsucc, hfil, hpos⟩
        · intro _
          simp only [tryLayer1]
          rw [if_neg hemp, hpick]
      · intro c hc
        simp only [tryLayer1] at hc
        rw [if_neg hemp, hpick] at hc
        simp only [Option.some_inj] at hc
        rw [← hc]
        exact ⟨hmem, hsucc, hfil, hpos, hmax⟩

/-- **C6 witness** — the amended theorem instantiated on the two-request
world of the counterexample: the picked best candidate is indeed one of
the (at most three) analyzed candidates. -/
theorem c6_layer1_top3_amended_witness :
    ((analyzeRequests ⟨[reqOne, reqTheDate], []⟩).map (fun c => c.url) =
      [reqOne.url, reqTheDate.url]) ∧
    ∀ c, (tryLayer1 pickyWorld ⟨[reqOne, reqTheDate], []⟩
        "2024-01-01" "2024-01-31").1.bestCandidate = some c →
      c ∈ (analyzeRequests ⟨[reqOne, reqTheDate], []⟩).take 3 :=
  ⟨rfl, fun c h =>
    ((c6_layer1_top3_amended pickyWorld ⟨[reqOne, reqTheDate], []⟩
      "2024-01-01" "2024-01-31").2.2 c h).1⟩

/-- **C1 counterexample** — an exception *does* escape
`extract_with_three_layers`: a layer-0 scan whose JSON result carries a
string-valued `date_params` (legal at the `evaluate_script` boundary)
survives the scan's own `try` blocks, but the orchestrator's unprotected
debug f-string (line 350) calls `.keys()` on it outside every `try`, and
the `AttributeError` propagates to the caller. -/
theorem c1_exception_escapes_counterexample :
    extractWithThreeLayers illScanBehavior ⟨[], []⟩ "2024-01-01" "2024-01-31" =
      Except.error (PyErr.attributeError "object has no attribute keys") := rfl

theorem pySlice_ok {v : PyVal} (h : v.isSliceable = true) (n : Nat) :
    ∃ x, pySlice v n = Except.ok x := by
  cases v with
  | str s => exact ⟨_, rfl⟩
  | list xs => exact ⟨_, rfl⟩
  | none => simp [PyVal.isSliceable] at h
  | bool c => simp [PyVal.isSliceable] at h
  | int i => simp [PyVal.isSliceable] at h
  | dict d => simp [PyVal.isSliceable] at h

theorem pyKeys_ok {v : PyVal} (h : v.isDict = true) :
    ∃ x, pyKeys v = Except.ok x := by
  cases v with
  | dict d => exact ⟨_, rfl⟩
  | str s => simp [PyVal.isDict] at h
  | list xs => simp [PyVal.isDict] at h
  | none => simp [PyVal.isDict] at h
  | bool c => simp [PyVal.isDict] at h
  | int i => simp [PyVal.isDict] at h

/-- **C1 (amended)** — the orchestrator returns a result (never
propagates an exception) for *every* collaborator behaviour — any HTTP
outcome, any interception record, any Layer-2/Layer-3 body — *provided*
the Layer-0 scan result is well-shaped at the two unprotected sites: on a
successful scan its `api_url` is sliceable and its `date_params` a dict
(the unguarded debug log, lines 349–350), and on a failed scan its
`error` field is a string (the unguarded `"…" + error` concatenation,
line 489).  Without that proviso an exception escapes (see the
counterexample). -/
theorem c1_no_escape_amended (b : Behavior) (nr : NetworkRequests)
    (sd ed : String)
    (hslice : (tryLayer0 b.toWorld).success = true →
      (tryLayer0 b.toWorld).apiUrl.isSliceable = true ∧
      (tryLayer0 b.toWorld).dateParams.isDict = true)
    (herr : (tryLayer0 b.toWorld).success = false →
      ∃ s, (tryLayer0 b.toWorld).error = PyVal.str s) :
    ∃ r, extractWithThreeLayers b nr sd ed = Except.ok r := by
  obtain ⟨o, lo, hph0, hlo⟩ : ∃ (o : Option DateAPIExtractionResult)
      (lo : Option Layer0Result),
      layer0Phase b.toWorld sd ed = Except.ok (o, lo) ∧
      (lo = Option.none ∨ lo = some (tryLayer0 b.toWorld)) := by
    simp only [layer0Phase]
    by_cases hbp : b.toWorld.browserPresent = true ∧ b.toWorld.pagePresent = true
    · rw [if_pos hbp]
      by_cases hsc : (tryLayer0 b.toWorld).success = true
      · rw [if_pos hsc]
        obtain ⟨hsl, hdc⟩ := hslice hsc
        obtain ⟨x, hx⟩ := pySlice_ok hsl 80
        obtain ⟨ks, hk⟩ := pyKeys_ok hdc
        rw [hx]
        simp only [py_bind_ok]
        rw [hk]
        simp only [py_bind_ok]
        cases hbc : buildCandidateFromGlobalVar b.toWorld (tryLayer0 b.toWorld) with
        | some cand =>
          dsimp only
          by_cases hv : (verifyCandidate b.toWorld cand sd ed).success = true
          · rw [if_pos hv]
            exact ⟨_, _, rfl, Or.inr rfl⟩
          · rw [if_neg hv]
            exact ⟨_, _, rfl, Or.inr rfl⟩
        | none =>
          exact ⟨_, _, rfl, Or.inr rfl⟩
      · rw [if_neg hsc]
        exact ⟨_, _, rfl, Or.inr rfl⟩
    · rw [if_neg hbp]
      exact ⟨_, _, rfl, Or.inl rfl⟩
  simp only [extractWithThreeLayers, hph0, py_bind_ok]
  cases o with
  | some res => exact ⟨res, rfl⟩
  | none =>
    by_cases hl1 : (tryLayer1 b.toWorld nr sd ed).1.success = true
    · rw [if_pos hl1]
      exact ⟨_, rfl⟩
    · rw [if_neg hl1]
      have haddv : ∃ u, pyAddStr "全局变量扫描失败: "
          (match lo with
           | some l0 => if l0.success then PyVal.str "" else l0.error
           | Option.none => PyVal.str "") = Except.ok u := by
        rcases hlo with rfl | rfl
        · exact ⟨_, rfl⟩
        · by_cases hsc : (tryLayer0 b.toWorld).success = true
          · simp only [hsc]
            exact ⟨_, rfl⟩
          · have hscf : (tryLayer0 b.toWorld).success = false := by
              revert hsc
              cases (tryLayer0 b.toWorld).success <;> simp
            obtain ⟨s, hs⟩ := herr hscf
            simp only [hscf, hs]
            exact ⟨_, rfl⟩
      obtain ⟨u, hu⟩ := haddv
      by_cases hbp2 : b.toWorld.browserPresent = true
      · rw [if_pos hbp2]
        dsimp only
        by_cases hl2 : (tryAll b.layer2Body
            (fun m => failLayer ("第二层执行异常: " ++ m))).success = true
        · rw [if_pos hl2]
          exact ⟨_, rfl⟩
        · rw [if_neg hl2]
          by_cases hl3p : b.toWorld.browserPresent = true ∧ b.toWorld.llmPresent = true
          · rw [if_pos hl3p]
            dsimp only
            by_cases hl3 : (tryAll b.layer3Body
                (fun m => failLayer ("第三层执行异常: " ++ m))).success = true
            · rw [if_pos hl3]
              exact ⟨_, rfl⟩
            · rw [if_neg hl3]
              rw [hu]
              simp only [py_bind_ok]
              exact ⟨_, rfl⟩
          · rw [if_neg hl3p]
            dsimp only
            rw [hu]
            simp only [py_bind_ok]
            exact ⟨_, rfl⟩
      · rw [if_neg hbp2]
        dsimp only
        by_cases hl3p : b.toWorld.browserPresent = true ∧ b.toWorld.llmPresent = true
        · rw [if_pos hl3p]
          dsimp only
          by_cases hl3 : (tryAll b.layer3Body
              (fun m => failLayer ("第三层执行异常: " ++ m))).success = true
          · rw [if_pos hl3]
            exact ⟨_, rfl⟩
          · rw [if_neg hl3]
            rw [hu]
            simp only [py_bind_ok]
            exact ⟨_, rfl⟩
        · rw [if_neg hl3p]
          dsimp only
          rw [hu]
          simp only [py_bind_ok]
          exact ⟨_, rfl⟩

/-- **C1 witness** — the amended theorem instantiated: a browserless
behaviour (whose layer-0 scan fails with the string error 浏览器未就绪)
always yields a returned result. -/
theorem c1_no_escape_amended_witness :
    ∃ r, extractWithThreeLayers okBehavior ⟨[reqStartEnd], []⟩
      "2024-01-01" "2024-01-31" = Except.ok r :=
  c1_no_escape_amended okBehavior ⟨[reqStartEnd], []⟩ "2024-01-01" "2024-01-31"
    (fun h => absurd h (by decide))
    (fun _ => ⟨"浏览器未就绪", rfl⟩)

end SpiderGen
